import Mathlib

/-! Shallow embedding of `src/simulator.c` and `src/keymapping.h` from the
xbox-controller-macos repository: the input-translation pipeline (button
differencing, trigger threshold edge detection with the wire swap quirk,
stick deadzone / digital / pointer processing), the steady-state read
loop's error handling, and the shutdown release pass.

Modelling conventions:
* C integers are modelled as `Nat` (unsigned) and `Int` (signed); the values
  flowing through the translated fragment stay in range (`uint8`, `uint16`,
  `int16`), and no arithmetic in it overflows.
* Float arithmetic (`sqrtf`, normalisation, thresholds) is modelled by exact
  rational arithmetic; the comparison `sqrtf(x*x+y*y) < d` is expressed by
  the equivalent integer comparison `x*x+y*y < d*d` (deadzone is
  pre-validated non-negative per the configuration contract), and the
  `(int16_t)(v * (32767.0f / sqrtf s))` cast as truncation toward zero of
  the exact real value, i.e. `sign v * Nat.sqrt ((natAbs v * 32767)^2 / s)`,
  using the identity `Nat.sqrt (a^2 / s) = ⌊a / Real.sqrt s⌋` for naturals.
* `powf` from libm is transcendental, hence not computable over `ℚ`; every
  function that calls it takes an arbitrary `fpow : ℚ → ℚ → ℚ` parameter,
  and a theorem that depends on a property of `powf` (such as
  `powf 0 e = 0` for `e ≠ 0`) takes that property as a hypothesis on `fpow`.
* The CGEvent side effects (`send_key_event`, `send_mouse_button_event`,
  `send_mouse_movement`) are reified as an `Event` list returned alongside
  the updated state.
* `gip.h` is part of the repository but not under `src/`; the constants and
  struct layouts it provides are modelled from the spec where noted.
-/

namespace Simulator

/-- Kernel-computable addition on `ℚ`, extensionally equal to `+`
(`ratAdd_eq` below).  The library operations `Rat.add`, `Rat.mul` and
`Rat.div` are marked irreducible, which would block evaluation of closed
witness statements; the model therefore uses these transparent equivalents
and the smart constructor `mkRat` for division by an integer constant. -/
def ratAdd (a b : ℚ) : ℚ := mkRat (a.num * b.den + b.num * a.den) (a.den * b.den)

/-- Kernel-computable multiplication on `ℚ`, extensionally equal to `*`
(`ratMul_eq` below). -/
def ratMul (a b : ℚ) : ℚ := mkRat (a.num * b.num) (a.den * b.den)

/-- Stick behavior modes, from `keymapping.h` (`StickMode`). -/
inductive StickMode
| wasd
| arrows
| mouse
| disabled
deriving DecidableEq, Repr

/-- Trigger behavior modes, from `keymapping.h` (`TriggerMode`). -/
inductive TriggerMode
| mouse
| key
| disabled
deriving DecidableEq, Repr

/-- Pointer buttons; `middle` models `kCGMouseButtonCenter`. -/
inductive MouseButton
| left
| right
| middle
deriving DecidableEq, Repr

/-- Reified event emitted to the OS event sink (`send_key_event`,
`send_mouse_button_event`, `send_mouse_movement`). -/
inductive Event
| key (keycode : ℕ) (pressed : Bool)
| mouseButton (button : MouseButton) (pressed : Bool)
| mouseMove (dx dy : ℚ)
deriving DecidableEq, Repr

/-- Button-to-keycode table, from `keymapping.h` (`ButtonMapping`). -/
structure ButtonMapping where
  key_a : ℕ
  key_b : ℕ
  key_x : ℕ
  key_y : ℕ
  key_lb : ℕ
  key_rb : ℕ
  key_ls : ℕ
  key_rs : ℕ
  key_view : ℕ
  key_menu : ℕ
  key_dpad_up : ℕ
  key_dpad_down : ℕ
  key_dpad_left : ℕ
  key_dpad_right : ℕ
deriving Repr

/-- Stick configuration, from `keymapping.h` (`StickMapping`). The deadzone
is an `int16_t` in C, pre-validated non-negative per the configuration
contract, so it is carried as a natural number. -/
structure StickMapping where
  left_stick_mode : StickMode
  left_up : ℕ
  left_down : ℕ
  left_left : ℕ
  left_right : ℕ
  right_stick_mode : StickMode
  right_up : ℕ
  right_down : ℕ
  right_left : ℕ
  right_right : ℕ
  mouse_sensitivity : ℚ
  mouse_curve : ℚ
  mouse_smoothing : ℚ
  deadzone : ℕ
deriving Repr

/-- Trigger configuration, from `keymapping.h` (`TriggerMapping`). -/
structure TriggerMapping where
  left_trigger_mode : TriggerMode
  right_trigger_mode : TriggerMode
  left_trigger_key : ℕ
  right_trigger_key : ℕ
  threshold : ℕ
deriving Repr

/-- Full mapping configuration, from `keymapping.h` (`ControllerMapping`). -/
structure ControllerMapping where
  buttons : ButtonMapping
  sticks : StickMapping
  triggers : TriggerMapping
  console_output_enabled : Bool
  streaming_mode : Bool
deriving Repr

/-- The default configuration, from `get_default_mapping` in `keymapping.h`.
The float literals 1.8 and 0.3 are carried as the decimal rationals the
source text denotes. -/
def get_default_mapping : ControllerMapping where
  buttons :=
    { key_a := 0x31
      key_b := 0x08
      key_x := 0x0F
      key_y := 0x03
      key_lb := 0x0C
      key_rb := 0x0E
      key_ls := 0x38
      key_rs := 0x3B
      key_view := 0x30
      key_menu := 0x35
      key_dpad_up := 0x7E
      key_dpad_down := 0x7D
      key_dpad_left := 0x7B
      key_dpad_right := 0x7C }
  sticks :=
    { left_stick_mode := StickMode.wasd
      left_up := 0x0D
      left_down := 0x01
      left_left := 0x00
      left_right := 0x02
      right_stick_mode := StickMode.mouse
      right_up := 0x22
      right_down := 0x28
      right_left := 0x26
      right_right := 0x25
      mouse_sensitivity := mkRat 3 2
      mouse_curve := mkRat 9 5
      mouse_smoothing := mkRat 3 10
      deadzone := 8000 }
  triggers :=
    { left_trigger_mode := TriggerMode.mouse
      right_trigger_mode := TriggerMode.mouse
      left_trigger_key := 0x06
      right_trigger_key := 0x07
      threshold := 127 }
  console_output_enabled := true
  streaming_mode := false

/-- Mutable cross-call state of the core, from `InputState` in
`simulator.c`. The C `bool keys[256]` array is modelled as a function from
keycodes to `Bool` (the configuration contract keeps indices below 256). -/
structure InputState where
  keys : ℕ → Bool
  mouse_left : Bool
  mouse_right : Bool
  mouse_middle : Bool
  prev_buttons : ℕ
  prev_left_trigger : ℕ
  prev_right_trigger : ℕ
  prev_left_stick_x : ℤ
  prev_left_stick_y : ℤ
  prev_right_stick_x : ℤ
  prev_right_stick_y : ℤ
  mouse_dx : ℚ
  mouse_dy : ℚ

/-- The all-zero initial state, from `static InputState input_state = {0}`. -/
def initState : InputState where
  keys := fun _ => false
  mouse_left := false
  mouse_right := false
  mouse_middle := false
  prev_buttons := 0
  prev_left_trigger := 0
  prev_right_trigger := 0
  prev_left_stick_x := 0
  prev_left_stick_y := 0
  prev_right_stick_x := 0
  prev_right_stick_y := 0
  mouse_dx := 0
  mouse_dy := 0

/-- Modelled from the spec: `gip.h` (not under `src/`) defines the 14
button bit masks `XBOX_BTN_*` of the 2-byte button bitset. The spec fixes
only that the bitset holds 14 named buttons; the concrete bit positions
follow the standard GIP input layout, and no claim depends on the
particular positions, only on the masks being 14 distinct single bits. -/
def XBOX_BTN_MENU : ℕ := 0x0004

/-- Modelled from the spec: see `XBOX_BTN_MENU`. -/
def XBOX_BTN_VIEW : ℕ := 0x0008

/-- Modelled from the spec: see `XBOX_BTN_MENU`. -/
def XBOX_BTN_A : ℕ := 0x0010

/-- Modelled from the spec: see `XBOX_BTN_MENU`. -/
def XBOX_BTN_B : ℕ := 0x0020

/-- Modelled from the spec: see `XBOX_BTN_MENU`. -/
def XBOX_BTN_X : ℕ := 0x0040

/-- Modelled from the spec: see `XBOX_BTN_MENU`. -/
def XBOX_BTN_Y : ℕ := 0x0080

/-- Modelled from the spec: see `XBOX_BTN_MENU`. -/
def XBOX_BTN_DPAD_UP : ℕ := 0x0100

/-- Modelled from the spec: see `XBOX_BTN_MENU`. -/
def XBOX_BTN_DPAD_DOWN : ℕ := 0x0200

/-- Modelled from the spec: see `XBOX_BTN_MENU`. -/
def XBOX_BTN_DPAD_LEFT : ℕ := 0x0400

/-- Modelled from the spec: see `XBOX_BTN_MENU`. -/
def XBOX_BTN_DPAD_RIGHT : ℕ := 0x0800

/-- Modelled from the spec: see `XBOX_BTN_MENU`. -/
def XBOX_BTN_LB : ℕ := 0x1000

/-- Modelled from the spec: see `XBOX_BTN_MENU`. -/
def XBOX_BTN_RB : ℕ := 0x2000

/-- Modelled from the spec: see `XBOX_BTN_MENU`. -/
def XBOX_BTN_LS : ℕ := 0x4000

/-- Modelled from the spec: see `XBOX_BTN_MENU`. -/
def XBOX_BTN_RS : ℕ := 0x8000

/-- The `button_map` table of `process_buttons` (mask, configured keycode),
in the fixed source enumeration order A, B, X, Y, LB, RB, LS, RS, View,
Menu, D-pad Up/Down/Left/Right. -/
def buttonEntries (c : ControllerMapping) : List (ℕ × ℕ) :=
  [(XBOX_BTN_A, c.buttons.key_a),
   (XBOX_BTN_B, c.buttons.key_b),
   (XBOX_BTN_X, c.buttons.key_x),
   (XBOX_BTN_Y, c.buttons.key_y),
   (XBOX_BTN_LB, c.buttons.key_lb),
   (XBOX_BTN_RB, c.buttons.key_rb),
   (XBOX_BTN_LS, c.buttons.key_ls),
   (XBOX_BTN_RS, c.buttons.key_rs),
   (XBOX_BTN_VIEW, c.buttons.key_view),
   (XBOX_BTN_MENU, c.buttons.key_menu),
   (XBOX_BTN_DPAD_UP, c.buttons.key_dpad_up),
   (XBOX_BTN_DPAD_DOWN, c.buttons.key_dpad_down),
   (XBOX_BTN_DPAD_LEFT, c.buttons.key_dpad_left),
   (XBOX_BTN_DPAD_RIGHT, c.buttons.key_dpad_right)]

/-- One iteration of the `for` loop body of `process_buttons`: compare the
current and previous bit under the entry's mask and emit a key transition
when they differ.  `prevButtons` is read from the state as it was on entry
to `process_buttons` (the C code updates `prev_buttons` only after the
loop). -/
def buttonStep (buttons prevButtons : ℕ) (entry : ℕ × ℕ)
    (acc : List Event × InputState) : List Event × InputState :=
  let is_pressed : Bool := decide (buttons &&& entry.1 ≠ 0)
  let was_pressed : Bool := decide (prevButtons &&& entry.1 ≠ 0)
  if is_pressed ≠ was_pressed then
    (acc.1 ++ [Event.key entry.2 is_pressed],
     { acc.2 with keys := Function.update acc.2.keys entry.2 is_pressed })
  else acc

/-- Model of `process_buttons` from `simulator.c`. -/
def processButtons (c : ControllerMapping) (buttons : ℕ) (s : InputState) :
    List Event × InputState :=
  let r := (buttonEntries c).foldl
    (fun acc entry => buttonStep buttons s.prev_buttons entry acc) ([], s)
  (r.1, { r.2 with prev_buttons := buttons })

/-- Model of `process_triggers` from `simulator.c`.  The GIP packet reports
the trigger analog values in swapped fields: the wire's `left_trigger` byte
drives the right physical trigger and vice versa, both for the threshold
comparison and for the stored previous trigger state (lines 171-202). -/
def processTriggers (c : ControllerMapping) (left_trigger right_trigger : ℕ)
    (s : InputState) : List Event × InputState :=
  let right_pressed : Bool := decide (left_trigger > c.triggers.threshold)
  let right_was_pressed : Bool := decide (s.prev_right_trigger > c.triggers.threshold)
  let (evR, sR) :=
    if right_pressed ≠ right_was_pressed then
      match c.triggers.right_trigger_mode with
      | TriggerMode.mouse =>
          ([Event.mouseButton MouseButton.right right_pressed],
           { s with mouse_right := right_pressed })
      | TriggerMode.key =>
          ([Event.key c.triggers.right_trigger_key right_pressed],
           { s with keys := Function.update s.keys c.triggers.right_trigger_key right_pressed })
      | TriggerMode.disabled => ([], s)
    else ([], s)
  let left_pressed : Bool := decide (right_trigger > c.triggers.threshold)
  let left_was_pressed : Bool := decide (s.prev_left_trigger > c.triggers.threshold)
  let (evL, sL) :=
    if left_pressed ≠ left_was_pressed then
      match c.triggers.left_trigger_mode with
      | TriggerMode.mouse =>
          ([Event.mouseButton MouseButton.left left_pressed],
           { sR with mouse_left := left_pressed })
      | TriggerMode.key =>
          ([Event.key c.triggers.left_trigger_key left_pressed],
           { sR with keys := Function.update sR.keys c.triggers.left_trigger_key left_pressed })
      | TriggerMode.disabled => ([], sR)
    else ([], sR)
  (evR ++ evL,
   { sL with prev_left_trigger := right_trigger, prev_right_trigger := left_trigger })

/-- Truncation toward zero of the exact real value
`v * (32767 / sqrt s)`, the model of the `(int16_t)(v * scale)` cast in
`apply_deadzone`; for a non-negative numerator `a`,
`⌊a / Real.sqrt s⌋ = Nat.sqrt (a^2 / s)`. -/
def scaleToBoundary (v : ℤ) (s : ℕ) : ℤ :=
  let m : ℕ := Nat.sqrt ((v.natAbs * 32767) ^ 2 / s)
  if v < 0 then -(m : ℤ) else (m : ℤ)

/-- Model of `apply_deadzone` from `simulator.c`: zero the vector when the
Euclidean magnitude is below the deadzone, rescale toward the 32767 circle
when it exceeds it.  The float comparisons `sqrtf s < d` and
`sqrtf s > 32767` are expressed by the squared comparisons. -/
def applyDeadzone (x y : ℤ) (deadzone : ℕ) : ℤ × ℤ :=
  let s : ℤ := x * x + y * y
  if s < (deadzone : ℤ) * (deadzone : ℤ) then (0, 0)
  else if s > 32767 * 32767 then
    (scaleToBoundary x s.toNat, scaleToBoundary y s.toNat)
  else (x, y)

/-- The four digital direction booleans of `process_stick_as_keys`
(lines 206-220): the axes arrive swapped (physical up/down in the wire's x
field), are swapped back, normalised to `[-1, 1]`, and compared against the
fixed 0.3 activation threshold. -/
def stickDirections (x y : ℤ) : Bool × Bool × Bool × Bool :=
  let xs : ℤ := y
  let ys : ℤ := x
  let norm_x : ℚ := mkRat xs 32767
  let norm_y : ℚ := mkRat ys 32767
  (decide (norm_y > mkRat 3 10), decide (norm_y < -(mkRat 3 10)),
   decide (norm_x < -(mkRat 3 10)), decide (norm_x > mkRat 3 10))

/-- One `if (dir != input_state.keys[key])` block of
`process_stick_as_keys`: emit a transition and update the hold slot when
the direction boolean differs from the keycode's current hold state. -/
def stickKeyStep (keycode : ℕ) (active : Bool)
    (acc : List Event × InputState) : List Event × InputState :=
  if active ≠ acc.2.keys keycode then
    (acc.1 ++ [Event.key keycode active],
     { acc.2 with keys := Function.update acc.2.keys keycode active })
  else acc

/-- Model of `process_stick_as_keys` from `simulator.c`: the four direction
comparisons run in the fixed order up, down, left, right. -/
def processStickAsKeys (x y : ℤ) (key_up key_down key_left key_right : ℕ)
    (s : InputState) : List Event × InputState :=
  let d := stickDirections x y
  stickKeyStep key_right d.2.2.2
    (stickKeyStep key_left d.2.2.1
      (stickKeyStep key_down d.2.1
        (stickKeyStep key_up d.1 ([], s))))

/-- Model of `process_stick_as_mouse` from `simulator.c`: swap the axes
back, normalise (inverting the vertical axis), apply the power-law response
curve through the `fpow` parameter (the model of libm `powf`), scale by
sensitivity and the fixed base magnitude 15, and accumulate into the mouse
delta accumulator. -/
def processStickAsMouse (fpow : ℚ → ℚ → ℚ) (c : ControllerMapping)
    (x y : ℤ) (s : InputState) : InputState :=
  let xs : ℤ := y
  let ys : ℤ := x
  let norm_x : ℚ := mkRat xs 32767
  let norm_y : ℚ := mkRat (-ys) 32767
  let sign_x : ℚ := if norm_x ≥ 0 then 1 else -1
  let sign_y : ℚ := if norm_y ≥ 0 then 1 else -1
  let curved_x : ℚ := ratMul sign_x (fpow |norm_x| c.sticks.mouse_curve)
  let curved_y : ℚ := ratMul sign_y (fpow |norm_y| c.sticks.mouse_curve)
  let dx : ℚ := ratMul (ratMul curved_x c.sticks.mouse_sensitivity) 15
  let dy : ℚ := ratMul (ratMul curved_y c.sticks.mouse_sensitivity) 15
  { s with mouse_dx := ratAdd s.mouse_dx dx, mouse_dy := ratAdd s.mouse_dy dy }

/-- Model of `process_sticks` from `simulator.c`: apply the shared deadzone
to both sticks, dispatch each stick on its configured mode, flush the
accumulated mouse delta (suppressed when exactly zero), and store the
post-deadzone stick values as the previous snapshot.  Faithful to the
source bug at lines 293-296: the right stick in WASD mode passes the LEFT
stick's configured keycodes. -/
def processSticks (fpow : ℚ → ℚ → ℚ) (c : ControllerMapping)
    (left_x left_y right_x right_y : ℤ) (s : InputState) :
    List Event × InputState :=
  let l := applyDeadzone left_x left_y c.sticks.deadzone
  let r := applyDeadzone right_x right_y c.sticks.deadzone
  let (ev1, s1) :=
    match c.sticks.left_stick_mode with
    | StickMode.wasd =>
        processStickAsKeys l.1 l.2 c.sticks.left_up c.sticks.left_down
          c.sticks.left_left c.sticks.left_right s
    | StickMode.arrows => processStickAsKeys l.1 l.2 0x7E 0x7D 0x7B 0x7C s
    | StickMode.mouse => ([], processStickAsMouse fpow c l.1 l.2 s)
    | StickMode.disabled => ([], s)
  let (ev2, s2) :=
    match c.sticks.right_stick_mode with
    | StickMode.wasd =>
        processStickAsKeys r.1 r.2 c.sticks.left_up c.sticks.left_down
          c.sticks.left_left c.sticks.left_right s1
    | StickMode.arrows => processStickAsKeys r.1 r.2 0x7E 0x7D 0x7B 0x7C s1
    | StickMode.mouse => ([], processStickAsMouse fpow c r.1 r.2 s1)
    | StickMode.disabled => ([], s1)
  let (ev3, s3) :=
    if s2.mouse_dx ≠ 0 ∨ s2.mouse_dy ≠ 0 then
      ([Event.mouseMove s2.mouse_dx s2.mouse_dy],
       { s2 with mouse_dx := 0, mouse_dy := 0 })
    else ([], s2)
  (ev1 ++ ev2 ++ ev3,
   { s3 with prev_left_stick_x := l.1, prev_left_stick_y := l.2,
             prev_right_stick_x := r.1, prev_right_stick_y := r.2 })

/-- Decoded input snapshot, from `GipInputPacket` (modelled from the spec:
`gip.h` is not under `src/`; section 6 of the spec fixes the payload as a
2-byte button bitmask, one byte per trigger, and four little-endian signed
16-bit stick values). -/
structure InputSnapshot where
  buttons : ℕ
  left_trigger : ℕ
  right_trigger : ℕ
  left_stick_x : ℤ
  left_stick_y : ℤ
  right_stick_x : ℤ
  right_stick_y : ℤ
deriving Repr

/-- One steady-state processing cycle for an accepted Input frame, in the
source order of `input_loop` lines 424-427: buttons, then triggers, then
sticks. -/
def processSnapshot (fpow : ℚ → ℚ → ℚ) (c : ControllerMapping)
    (snap : InputSnapshot) (s : InputState) : List Event × InputState :=
  let (e1, s1) := processButtons c snap.buttons s
  let (e2, s2) := processTriggers c snap.left_trigger snap.right_trigger s1
  let (e3, s3) := processSticks fpow c snap.left_stick_x snap.left_stick_y
    snap.right_stick_x snap.right_stick_y s2
  (e1 ++ e2 ++ e3, s3)

/-- Modelled from the spec: the `GIP_CMD_INPUT` command byte defined in
`gip.h` (not under `src/`); the concrete value is the standard GIP input
command and no claim depends on it. -/
def GIP_CMD_INPUT : ℕ := 0x20

/-- Size in bytes of the `GipHeader` struct (modelled from the spec's wire
layout: command, flags, sequence, payload-length indicator). -/
def gipHeaderSize : ℕ := 4

/-- Size in bytes of the full `GipInputPacket` struct (modelled from the
spec's wire layout: 4-byte header, 2-byte button bitmask, two trigger
bytes, four little-endian 16-bit stick values). -/
def gipInputPacketSize : ℕ := 16

/-- Little-endian decoding of a signed 16-bit field from two payload
bytes. -/
def decodeInt16 (lo hi : ℕ) : ℤ :=
  let u : ℕ := lo + 256 * hi
  if u < 32768 then (u : ℤ) else (u : ℤ) - 65536

/-- Reinterpretation of a received buffer as a `GipInputPacket` (the C code
casts the buffer pointer; byte offsets follow the wire layout). -/
def parseInputPacket (b : List ℕ) : InputSnapshot where
  buttons := b.getD 4 0 + 256 * b.getD 5 0
  left_trigger := b.getD 6 0
  right_trigger := b.getD 7 0
  left_stick_x := decodeInt16 (b.getD 8 0) (b.getD 9 0)
  left_stick_y := decodeInt16 (b.getD 10 0) (b.getD 11 0)
  right_stick_x := decodeInt16 (b.getD 12 0) (b.getD 13 0)
  right_stick_y := decodeInt16 (b.getD 14 0) (b.getD 15 0)

/-- Frame handling of one successful read in `input_loop` (lines 415-451):
a buffer shorter than the header is ignored; an Input command frame is
processed only when the transferred length covers the full
`GipInputPacket`; every other frame (including `GIP_CMD_GUIDE_BUTTON`,
which only prints) produces no events and no state change.  The declared
payload-length byte at offset 3 is never consulted. -/
def processFrame (fpow : ℚ → ℚ → ℚ) (c : ControllerMapping) (b : List ℕ)
    (s : InputState) : List Event × InputState :=
  if gipHeaderSize ≤ b.length then
    if b.getD 0 0 = GIP_CMD_INPUT ∧ gipInputPacketSize ≤ b.length then
      processSnapshot fpow c (parseInputPacket b) s
    else ([], s)
  else ([], s)

/-- libusb timeout error code `LIBUSB_ERROR_TIMEOUT`. -/
def LIBUSB_ERROR_TIMEOUT : ℤ := -7

/-- libusb device-gone error code `LIBUSB_ERROR_NO_DEVICE`. -/
def LIBUSB_ERROR_NO_DEVICE : ℤ := -4

/-- Outcome of one `libusb_interrupt_transfer` read: a successful transfer
of `bytes` (the transferred length is the list length) or a negative error
code. -/
inductive ReadResult
| ok (bytes : List ℕ)
| errCode (code : ℤ)
deriving DecidableEq, Repr

/-- Model of the steady-state `while (running)` read loop of `input_loop`
(lines 411-459), driven by the finite sequence of read outcomes the
transport delivers; an exhausted sequence models `running` being cleared
by the signal handler.  A successful read is handled by `processFrame`;
a timeout skips the cycle; `LIBUSB_ERROR_NO_DEVICE` breaks out of the
loop; any other error is ignored and the loop continues. -/
def runLoop (fpow : ℚ → ℚ → ℚ) (c : ControllerMapping) :
    List ReadResult → InputState → List Event × InputState
  | [], s => ([], s)
  | ReadResult.ok b :: rest, s =>
      let (e, s1) := processFrame fpow c b s
      let (es, s2) := runLoop fpow c rest s1
      (e ++ es, s2)
  | ReadResult.errCode code :: rest, s =>
      if code ≠ LIBUSB_ERROR_TIMEOUT then
        if code = LIBUSB_ERROR_NO_DEVICE then ([], s)
        else runLoop fpow c rest s
      else runLoop fpow c rest s

/-- The keycodes in the 0..255 index range of the `keys` array that are
currently marked held, in index order. -/
def heldKeycodes (s : InputState) : List ℕ :=
  (List.range 256).filter fun i => s.keys i

/-- The shutdown release pass of `main` (lines 575-588): release every
keycode still held in `keys[0..255]`, then the left and the right mouse
button if held.  The middle button is not checked by the source. -/
def shutdownEvents (s : InputState) : List Event :=
  ((heldKeycodes s).map fun i => Event.key i false)
    ++ (if s.mouse_left then [Event.mouseButton MouseButton.left false] else [])
    ++ (if s.mouse_right then [Event.mouseButton MouseButton.right false] else [])

/-- Whole-program event trace: the steady-state loop followed by the
shutdown release pass on whatever state the loop ended in, regardless of
whether the loop ended by signal (exhausted reads) or device loss. -/
def runProgram (fpow : ℚ → ℚ → ℚ) (c : ControllerMapping)
    (reads : List ReadResult) : List Event :=
  let (es, s) := runLoop fpow c reads initState
  es ++ shutdownEvents s

/-- Configuration validity contract (spec section 6: the core treats all
numeric fields as pre-validated): every configured keycode lies in the
0..255 domain of the `keys` array. -/
def ValidConfig (c : ControllerMapping) : Prop :=
  c.buttons.key_a < 256 ∧ c.buttons.key_b < 256 ∧ c.buttons.key_x < 256 ∧
  c.buttons.key_y < 256 ∧ c.buttons.key_lb < 256 ∧ c.buttons.key_rb < 256 ∧
  c.buttons.key_ls < 256 ∧ c.buttons.key_rs < 256 ∧ c.buttons.key_view < 256 ∧
  c.buttons.key_menu < 256 ∧ c.buttons.key_dpad_up < 256 ∧
  c.buttons.key_dpad_down < 256 ∧ c.buttons.key_dpad_left < 256 ∧
  c.buttons.key_dpad_right < 256 ∧
  c.sticks.left_up < 256 ∧ c.sticks.left_down < 256 ∧
  c.sticks.left_left < 256 ∧ c.sticks.left_right < 256 ∧
  c.triggers.left_trigger_key < 256 ∧ c.triggers.right_trigger_key < 256

instance (c : ControllerMapping) : Decidable (ValidConfig c) := by
  unfold ValidConfig; infer_instance

/-- The keycode slots written by the digital stick paths of
`process_sticks`, in write order; the right stick's WASD branch writes the
left stick's configured keycodes (source lines 293-296). -/
def digitalKeycodes (c : ControllerMapping) : List ℕ :=
  (match c.sticks.left_stick_mode with
   | StickMode.wasd =>
       [c.sticks.left_up, c.sticks.left_down, c.sticks.left_left, c.sticks.left_right]
   | StickMode.arrows => [0x7E, 0x7D, 0x7B, 0x7C]
   | _ => [])
  ++ (match c.sticks.right_stick_mode with
   | StickMode.wasd =>
       [c.sticks.left_up, c.sticks.left_down, c.sticks.left_left, c.sticks.left_right]
   | StickMode.arrows => [0x7E, 0x7D, 0x7B, 0x7C]
   | _ => [])

/-- Events that the press/release claims range over: key transitions and
pointer-button transitions, excluding pointer motion. -/
def eventIsKeyOrButton : Event → Bool
  | Event.key _ _ => true
  | Event.mouseButton _ _ => true
  | Event.mouseMove _ _ => false

/-- The press transition for the right physical trigger's configured
binding, per mode (spec section 4.3 mode-dependent emission). -/
def rightTriggerPressEvents (c : ControllerMapping) : List Event :=
  match c.triggers.right_trigger_mode with
  | TriggerMode.mouse => [Event.mouseButton MouseButton.right true]
  | TriggerMode.key => [Event.key c.triggers.right_trigger_key true]
  | TriggerMode.disabled => []

/-- The press transition for the left physical trigger's configured
binding, per mode. -/
def leftTriggerPressEvents (c : ControllerMapping) : List Event :=
  match c.triggers.left_trigger_mode with
  | TriggerMode.mouse => [Event.mouseButton MouseButton.left true]
  | TriggerMode.key => [Event.key c.triggers.left_trigger_key true]
  | TriggerMode.disabled => []

/-- Concrete stand-in for the `fpow` parameter in closed witness and
counterexample statements.  The statements that use it exercise only code
paths where every pointer-mode stick is centered, where libm `powf`
likewise returns 0. -/
def powZero : ℚ → ℚ → ℚ := fun _ _ => 0

/-- Recogniser for events that touch the middle pointer button. -/
def eventTouchesMiddle : Event → Bool
  | Event.mouseButton MouseButton.middle _ => true
  | _ => false

/-- Recogniser for key transition events. -/
def isKeyEvent : Event → Bool
  | Event.key _ _ => true
  | _ => false

/-- Invariant carried through the read loop: the middle mouse button is
never marked held, and no key slot outside the 0..255 array domain is
marked held. -/
def StateOK (s : InputState) : Prop :=
  s.mouse_middle = false ∧ ∀ k, 256 ≤ k → s.keys k = false

/-- The default configuration with the right stick switched to WASD mode,
the configuration under which the right-stick keycode bug is visible. -/
def cfgRightWasd : ControllerMapping :=
  { get_default_mapping with
      sticks := { get_default_mapping.sticks with right_stick_mode := StickMode.wasd } }

/-- Snapshot with the left stick pushed fully up in physical terms (the
wire reports physical up/down in the x field) and everything else idle. -/
def snapUp : InputSnapshot where
  buttons := 0
  left_trigger := 0
  right_trigger := 0
  left_stick_x := 32767
  left_stick_y := 0
  right_stick_x := 0
  right_stick_y := 0

/-- A well-formed 16-byte Input frame with the A, B and X buttons down and
everything else idle. -/
def frameABX : List ℕ :=
  [0x20, 0x20, 0x00, 0x09, 0x70, 0x00, 0, 0, 0, 0, 0, 0, 0, 0, 0, 0]

/-- A 16-byte Input frame whose declared payload-length byte (offset 3) is
255, far more than the 12 bytes that remain in the buffer, with the A
button down. -/
def frameBadLen : List ℕ :=
  [0x20, 0x20, 0x00, 0xFF, 0x10, 0x00, 0, 0, 0, 0, 0, 0, 0, 0, 0, 0]

/-! Arithmetic helper lemmas. -/

theorem rat_num_eq (a : ℚ) : (a.num : ℚ) = a * a.den := by
  have h := Rat.num_div_den a
  have hd : ((a.den : ℚ)) ≠ 0 := by positivity
  calc (a.num : ℚ) = ((a.num : ℚ) / a.den) * a.den := by field_simp
  _ = a * a.den := by rw [h]

theorem ratAdd_eq (a b : ℚ) : ratAdd a b = a + b := by
  rw [ratAdd, Rat.mkRat_eq_div]
  push_cast
  rw [rat_num_eq a, rat_num_eq b, div_eq_iff (by positivity)]
  ring

theorem ratMul_eq (a b : ℚ) : ratMul a b = a * b := by
  rw [ratMul, Rat.mkRat_eq_div]
  push_cast
  rw [rat_num_eq a, rat_num_eq b, div_eq_iff (by positivity)]
  ring

/-! Lemmas about `stickKeyStep`. -/

theorem stickKeyStep_keys_self (k : ℕ) (a : Bool) (acc : List Event × InputState) :
    (stickKeyStep k a acc).2.keys k = a := by
  unfold stickKeyStep
  split
  · simp
  · next h => exact (not_ne_iff.mp h).symm

theorem stickKeyStep_keys_other (k : ℕ) (a : Bool) (acc : List Event × InputState)
    (j : ℕ) (h : j ≠ k) :
    (stickKeyStep k a acc).2.keys j = acc.2.keys j := by
  unfold stickKeyStep
  split
  · simp [Function.update, h]
  · rfl

theorem stickKeyStep_noop (k : ℕ) (a : Bool) (acc : List Event × InputState)
    (h : acc.2.keys k = a) :
    stickKeyStep k a acc = acc := by
  unfold stickKeyStep
  rw [if_neg]
  simp [h]

theorem stickKeyStep_state (k : ℕ) (a : Bool) (acc : List Event × InputState) :
    (stickKeyStep k a acc).2 = { acc.2 with keys := (stickKeyStep k a acc).2.keys } := by
  unfold stickKeyStep
  split <;> rfl

theorem stickKeyStep_mem (k : ℕ) (a : Bool) (acc : List Event × InputState)
    (e : Event) (he : e ∈ (stickKeyStep k a acc).1) :
    e ∈ acc.1 ∨ e = Event.key k a := by
  unfold stickKeyStep at he
  split at he
  · rcases List.mem_append.mp he with h | h
    · exact Or.inl h
    · exact Or.inr (List.mem_singleton.mp h)
  · exact Or.inl he

/-! Lemmas about `buttonStep` and the `process_buttons` fold. -/

theorem buttonStep_fst (b pb : ℕ) (entry : ℕ × ℕ) (acc : List Event × InputState) :
    (buttonStep b pb entry acc).1 =
      acc.1 ++ (if decide (b &&& entry.1 ≠ 0) ≠ decide (pb &&& entry.1 ≠ 0) then
        some (Event.key entry.2 (decide (b &&& entry.1 ≠ 0))) else none).toList := by
  simp only [buttonStep]
  split
  · rfl
  · simp

theorem buttonStep_state (b pb : ℕ) (entry : ℕ × ℕ) (acc : List Event × InputState) :
    (buttonStep b pb entry acc).2 = { acc.2 with keys := (buttonStep b pb entry acc).2.keys } := by
  simp only [buttonStep]
  split <;> rfl

theorem buttonStep_noop (b pb : ℕ) (entry : ℕ × ℕ) (acc : List Event × InputState)
    (h : decide (b &&& entry.1 ≠ 0) = decide (pb &&& entry.1 ≠ 0)) :
    buttonStep b pb entry acc = acc := by
  simp only [buttonStep]
  rw [if_neg]
  simp [h]

theorem foldl_buttonStep_fst (b pb : ℕ) (entries : List (ℕ × ℕ))
    (acc : List Event × InputState) :
    (entries.foldl (fun a e => buttonStep b pb e a) acc).1 =
      acc.1 ++ entries.filterMap (fun e =>
        if decide (b &&& e.1 ≠ 0) ≠ decide (pb &&& e.1 ≠ 0) then
          some (Event.key e.2 (decide (b &&& e.1 ≠ 0))) else none) := by
  induction entries generalizing acc with
  | nil => simp
  | cons e es ih =>
      rw [List.foldl_cons, ih, List.filterMap_cons]
      by_cases hc : decide (b &&& e.1 ≠ 0) ≠ decide (pb &&& e.1 ≠ 0)
      · rw [if_pos hc, buttonStep_fst, if_pos hc]
        simp
      · rw [if_neg hc, buttonStep_fst, if_neg hc]
        simp

theorem foldl_buttonStep_state (b pb : ℕ) (entries : List (ℕ × ℕ))
    (acc : List Event × InputState) :
    (entries.foldl (fun a e => buttonStep b pb e a) acc).2 =
      { acc.2 with keys := (entries.foldl (fun a e => buttonStep b pb e a) acc).2.keys } := by
  induction entries generalizing acc with
  | nil => rfl
  | cons e es ih =>
      rw [List.foldl_cons]
      calc (es.foldl (fun a e => buttonStep b pb e a) (buttonStep b pb e acc)).2
          = { (buttonStep b pb e acc).2 with
                keys := (es.foldl (fun a e => buttonStep b pb e a) (buttonStep b pb e acc)).2.keys } :=
            ih (buttonStep b pb e acc)
        _ = _ := by rw [buttonStep_state b pb e acc]

theorem foldl_buttonStep_keys_other (b pb : ℕ) (entries : List (ℕ × ℕ))
    (acc : List Event × InputState) (j : ℕ) (h : j ∉ entries.map Prod.snd) :
    (entries.foldl (fun a e => buttonStep b pb e a) acc).2.keys j = acc.2.keys j := by
  induction entries generalizing acc with
  | nil => rfl
  | cons e es ih =>
      rw [List.map_cons] at h
      have h1 : j ≠ e.2 := fun hj => h (List.mem_cons.mpr (Or.inl hj))
      have h2 : j ∉ es.map Prod.snd := fun hj => h (List.mem_cons.mpr (Or.inr hj))
      rw [List.foldl_cons, ih _ h2]
      simp only [buttonStep]
      split
      · simp [Function.update, h1]
      · rfl

theorem processButtons_fst (c : ControllerMapping) (b : ℕ) (s : InputState) :
    (processButtons c b s).1 = (buttonEntries c).filterMap (fun e =>
      if decide (b &&& e.1 ≠ 0) ≠ decide (s.prev_buttons &&& e.1 ≠ 0) then
        some (Event.key e.2 (decide (b &&& e.1 ≠ 0))) else none) := by
  unfold processButtons
  rw [foldl_buttonStep_fst]
  simp

/-! Lemmas about `processTriggers`. -/

theorem processTriggers_prev (c : ControllerMapping) (lt rt : ℕ) (s : InputState) :
    (processTriggers c lt rt s).2.prev_left_trigger = rt ∧
    (processTriggers c lt rt s).2.prev_right_trigger = lt :=
  ⟨rfl, rfl⟩

theorem processTriggers_middle (c : ControllerMapping) (lt rt : ℕ) (s : InputState) :
    (processTriggers c lt rt s).2.mouse_middle = s.mouse_middle := by
  simp only [processTriggers]
  repeat' split
  all_goals rfl

theorem processTriggers_prev_buttons (c : ControllerMapping) (lt rt : ℕ) (s : InputState) :
    (processTriggers c lt rt s).2.prev_buttons = s.prev_buttons := by
  simp only [processTriggers]
  repeat' split
  all_goals rfl

theorem processTriggers_keys_other (c : ControllerMapping) (lt rt : ℕ) (s : InputState)
    (k : ℕ) (h1 : k ≠ c.triggers.left_trigger_key) (h2 : k ≠ c.triggers.right_trigger_key) :
    (processTriggers c lt rt s).2.keys k = s.keys k := by
  simp only [processTriggers]
  repeat' split
  all_goals simp [Function.update, h1, h2]

theorem processTriggers_no_middle (c : ControllerMapping) (lt rt : ℕ) (s : InputState)
    (e : Event) (he : e ∈ (processTriggers c lt rt s).1) :
    eventTouchesMiddle e = false := by
  simp only [processTriggers] at he
  repeat' split at he
  all_goals simp only [List.append_nil, List.nil_append, List.mem_append,
    List.mem_singleton, List.not_mem_nil, or_false, false_or] at he
  all_goals
    first
    | exact absurd he (List.not_mem_nil e)
    | (rcases he with he | he <;> subst he <;> rfl)
    | (subst he; rfl)

theorem processTriggers_noop (c : ControllerMapping) (lt rt : ℕ) (s : InputState)
    (hr : s.prev_right_trigger = lt) (hl : s.prev_left_trigger = rt) :
    processTriggers c lt rt s = ([], s) := by
  subst hr
  subst hl
  simp only [processTriggers]
  rw [if_neg (by simp), if_neg (by simp)]
  rfl

/-! Lemmas about the stick processing helpers. -/

theorem keysOnly_trans {s a b : InputState} (h1 : a = { s with keys := a.keys })
    (h2 : b = { a with keys := b.keys }) : b = { s with keys := b.keys } := by
  conv_lhs => rw [h2]
  rw [h1]

theorem processStickAsMouse_middle (fpow : ℚ → ℚ → ℚ) (c : ControllerMapping)
    (x y : ℤ) (s : InputState) :
    (processStickAsMouse fpow c x y s).mouse_middle = s.mouse_middle := rfl

theorem processStickAsMouse_keys (fpow : ℚ → ℚ → ℚ) (c : ControllerMapping)
    (x y : ℤ) (s : InputState) :
    (processStickAsMouse fpow c x y s).keys = s.keys := rfl

theorem processStickAsKeys_state (x y : ℤ) (kU kD kL kR : ℕ) (s : InputState) :
    (processStickAsKeys x y kU kD kL kR s).2 =
      { s with keys := (processStickAsKeys x y kU kD kL kR s).2.keys } := by
  simp only [processStickAsKeys]
  exact keysOnly_trans (keysOnly_trans (keysOnly_trans (stickKeyStep_state _ _ _)
    (stickKeyStep_state _ _ _)) (stickKeyStep_state _ _ _)) (stickKeyStep_state _ _ _)

theorem processStickAsKeys_middle (x y : ℤ) (kU kD kL kR : ℕ) (s : InputState) :
    (processStickAsKeys x y kU kD kL kR s).2.mouse_middle = s.mouse_middle := by
  rw [processStickAsKeys_state]

theorem processStickAsKeys_mem (x y : ℤ) (kU kD kL kR : ℕ) (s : InputState)
    (e : Event) (he : e ∈ (processStickAsKeys x y kU kD kL kR s).1) :
    ∃ k a, e = Event.key k a ∧ (k = kU ∨ k = kD ∨ k = kL ∨ k = kR) := by
  simp only [processStickAsKeys] at he
  rcases stickKeyStep_mem _ _ _ _ he with h | h
  · rcases stickKeyStep_mem _ _ _ _ h with h | h
    · rcases stickKeyStep_mem _ _ _ _ h with h | h
      · rcases stickKeyStep_mem _ _ _ _ h with h | h
        · exact absurd h (List.not_mem_nil e)
        · exact ⟨kU, _, h, Or.inl rfl⟩
      · exact ⟨kD, _, h, Or.inr (Or.inl rfl)⟩
    · exact ⟨kL, _, h, Or.inr (Or.inr (Or.inl rfl))⟩
  · exact ⟨kR, _, h, Or.inr (Or.inr (Or.inr rfl))⟩

theorem processStickAsKeys_noop (x y : ℤ) (kU kD kL kR : ℕ) (s : InputState)
    (h1 : s.keys kU = (stickDirections x y).1)
    (h2 : s.keys kD = (stickDirections x y).2.1)
    (h3 : s.keys kL = (stickDirections x y).2.2.1)
    (h4 : s.keys kR = (stickDirections x y).2.2.2) :
    processStickAsKeys x y kU kD kL kR s = ([], s) := by
  simp only [processStickAsKeys]
  have e1 : stickKeyStep kU (stickDirections x y).1 ([], s) = ([], s) :=
    stickKeyStep_noop _ _ _ h1
  rw [e1]
  have e2 : stickKeyStep kD (stickDirections x y).2.1 ([], s) = ([], s) :=
    stickKeyStep_noop _ _ _ h2
  rw [e2]
  have e3 : stickKeyStep kL (stickDirections x y).2.2.1 ([], s) = ([], s) :=
    stickKeyStep_noop _ _ _ h3
  rw [e3]
  exact stickKeyStep_noop _ _ _ h4

theorem processStickAsKeys_keys_other (x y : ℤ) (kU kD kL kR : ℕ) (s : InputState)
    (j : ℕ) (h1 : j ≠ kU) (h2 : j ≠ kD) (h3 : j ≠ kL) (h4 : j ≠ kR) :
    (processStickAsKeys x y kU kD kL kR s).2.keys j = s.keys j := by
  simp only [processStickAsKeys]
  rw [stickKeyStep_keys_other _ _ _ _ h4, stickKeyStep_keys_other _ _ _ _ h3,
    stickKeyStep_keys_other _ _ _ _ h2, stickKeyStep_keys_other _ _ _ _ h1]

theorem processStickAsKeys_keys_slots (x y : ℤ) (kU kD kL kR : ℕ) (s : InputState)
    (hUD : kU ≠ kD) (hUL : kU ≠ kL) (hUR : kU ≠ kR)
    (hDL : kD ≠ kL) (hDR : kD ≠ kR) (hLR : kL ≠ kR) :
    (processStickAsKeys x y kU kD kL kR s).2.keys kU = (stickDirections x y).1 ∧
    (processStickAsKeys x y kU kD kL kR s).2.keys kD = (stickDirections x y).2.1 ∧
    (processStickAsKeys x y kU kD kL kR s).2.keys kL = (stickDirections x y).2.2.1 ∧
    (processStickAsKeys x y kU kD kL kR s).2.keys kR = (stickDirections x y).2.2.2 := by
  simp only [processStickAsKeys]
  refine ⟨?_, ?_, ?_, ?_⟩
  · rw [stickKeyStep_keys_other _ _ _ _ hUR, stickKeyStep_keys_other _ _ _ _ hUL,
      stickKeyStep_keys_other _ _ _ _ hUD, stickKeyStep_keys_self]
  · rw [stickKeyStep_keys_other _ _ _ _ hDR, stickKeyStep_keys_other _ _ _ _ hDL,
      stickKeyStep_keys_self]
  · rw [stickKeyStep_keys_other _ _ _ _ hLR, stickKeyStep_keys_self]
  · rw [stickKeyStep_keys_self]

/-! Lemmas about `processSticks`. -/

theorem processSticks_middle (fpow : ℚ → ℚ → ℚ) (c : ControllerMapping)
    (lx ly rx ry : ℤ) (s : InputState) :
    (processSticks fpow c lx ly rx ry s).2.mouse_middle = s.mouse_middle := by
  simp only [processSticks]
  repeat' split
  all_goals simp [processStickAsKeys_middle, processStickAsMouse_middle]

theorem processSticks_prev_buttons (fpow : ℚ → ℚ → ℚ) (c : ControllerMapping)
    (lx ly rx ry : ℤ) (s : InputState) :
    (processSticks fpow c lx ly rx ry s).2.prev_buttons = s.prev_buttons := by
  have hk : ∀ (x y : ℤ) (a b d e : ℕ) (t : InputState),
      (processStickAsKeys x y a b d e t).2.prev_buttons = t.prev_buttons := by
    intro x y a b d e t
    rw [processStickAsKeys_state]
  simp only [processSticks]
  repeat' split
  all_goals simp [hk, processStickAsMouse]

theorem processSticks_prev_triggers (fpow : ℚ → ℚ → ℚ) (c : ControllerMapping)
    (lx ly rx ry : ℤ) (s : InputState) :
    (processSticks fpow c lx ly rx ry s).2.prev_left_trigger = s.prev_left_trigger ∧
    (processSticks fpow c lx ly rx ry s).2.prev_right_trigger = s.prev_right_trigger := by
  have hk1 : ∀ (x y : ℤ) (a b d e : ℕ) (t : InputState),
      (processStickAsKeys x y a b d e t).2.prev_left_trigger = t.prev_left_trigger := by
    intro x y a b d e t
    rw [processStickAsKeys_state]
  have hk2 : ∀ (x y : ℤ) (a b d e : ℕ) (t : InputState),
      (processStickAsKeys x y a b d e t).2.prev_right_trigger = t.prev_right_trigger := by
    intro x y a b d e t
    rw [processStickAsKeys_state]
  constructor <;> (simp only [processSticks]; repeat' split) <;>
    simp [hk1, hk2, processStickAsMouse]

theorem processSticks_no_middle (fpow : ℚ → ℚ → ℚ) (c : ControllerMapping)
    (lx ly rx ry : ℤ) (s : InputState) :
    ∀ e ∈ (processSticks fpow c lx ly rx ry s).1, eventTouchesMiddle e = false := by
  simp only [processSticks]
  repeat' split
  all_goals
    intro e he
    rcases List.mem_append.mp he with h1 | h2
    case _ =>
      rcases List.mem_append.mp h1 with h3 | h4
      case _ =>
        first
        | exact absurd h3 (List.not_mem_nil e)
        | (obtain ⟨k, a, rfl, hh⟩ := processStickAsKeys_mem _ _ _ _ _ _ _ _ h3; rfl)
      case _ =>
        first
        | exact absurd h4 (List.not_mem_nil e)
        | (obtain ⟨k, a, rfl, hh⟩ := processStickAsKeys_mem _ _ _ _ _ _ _ _ h4; rfl)
    case _ =>
      first
      | exact absurd h2 (List.not_mem_nil e)
      | (rw [List.mem_singleton] at h2; subst h2; rfl)

/-! Lemmas about `processButtons` and `processSnapshot`. -/

theorem foldl_buttonStep_noop (b : ℕ) (entries : List (ℕ × ℕ))
    (acc : List Event × InputState) :
    entries.foldl (fun a e => buttonStep b b e a) acc = acc := by
  induction entries generalizing acc with
  | nil => rfl
  | cons e es ih =>
      rw [List.foldl_cons, buttonStep_noop b b e acc rfl, ih]

theorem processButtons_middle (c : ControllerMapping) (b : ℕ) (s : InputState) :
    (processButtons c b s).2.mouse_middle = s.mouse_middle := by
  have h := foldl_buttonStep_state b s.prev_buttons (buttonEntries c) ([], s)
  simp only [processButtons]
  rw [h]

theorem processButtons_no_middle (c : ControllerMapping) (b : ℕ) (s : InputState) :
    ∀ e ∈ (processButtons c b s).1, eventTouchesMiddle e = false := by
  intro e he
  rw [processButtons_fst] at he
  obtain ⟨entry, _, hsome⟩ := List.mem_filterMap.mp he
  by_cases hc : decide (b &&& entry.1 ≠ 0) ≠ decide (s.prev_buttons &&& entry.1 ≠ 0)
  · rw [if_pos hc] at hsome
    cases hsome
    rfl
  · rw [if_neg hc] at hsome
    cases hsome

theorem processButtons_keys_other (c : ControllerMapping) (b : ℕ) (s : InputState)
    (j : ℕ) (h : j ∉ (buttonEntries c).map Prod.snd) :
    (processButtons c b s).2.keys j = s.keys j := by
  have hh := foldl_buttonStep_keys_other b s.prev_buttons (buttonEntries c) ([], s) j h
  simp only [processButtons]
  exact hh

theorem processButtons_noop (c : ControllerMapping) (b : ℕ) (s : InputState)
    (h : s.prev_buttons = b) :
    processButtons c b s = ([], s) := by
  subst h
  simp only [processButtons]
  rw [foldl_buttonStep_noop]

theorem processSnapshot_middle (fpow : ℚ → ℚ → ℚ) (c : ControllerMapping)
    (snap : InputSnapshot) (s : InputState) :
    (processSnapshot fpow c snap s).2.mouse_middle = s.mouse_middle := by
  simp only [processSnapshot]
  rw [processSticks_middle, processTriggers_middle, processButtons_middle]

theorem processSnapshot_no_middle (fpow : ℚ → ℚ → ℚ) (c : ControllerMapping)
    (snap : InputSnapshot) (s : InputState) :
    ∀ e ∈ (processSnapshot fpow c snap s).1, eventTouchesMiddle e = false := by
  intro e he
  simp only [processSnapshot, List.mem_append] at he
  rcases he with (h | h) | h
  · exact processButtons_no_middle _ _ _ e h
  · exact processTriggers_no_middle _ _ _ _ e h
  · exact processSticks_no_middle _ _ _ _ _ _ _ e h

/-! Invariant preservation through the read loop. -/

theorem processSticks_keys_big (fpow : ℚ → ℚ → ℚ) (c : ControllerMapping)
    (lx ly rx ry : ℤ) (s : InputState) (hv : ValidConfig c) (k : ℕ) (hk : 256 ≤ k) :
    (processSticks fpow c lx ly rx ry s).2.keys k = s.keys k := by
  obtain ⟨_, _, _, _, _, _, _, _, _, _, _, _, _, _, hlu, hld, hll, hlr, _, _⟩ := hv
  have n1 : k ≠ c.sticks.left_up := by omega
  have n2 : k ≠ c.sticks.left_down := by omega
  have n3 : k ≠ c.sticks.left_left := by omega
  have n4 : k ≠ c.sticks.left_right := by omega
  have n5 : k ≠ 0x7E := by omega
  have n6 : k ≠ 0x7D := by omega
  have n7 : k ≠ 0x7B := by omega
  have n8 : k ≠ 0x7C := by omega
  simp only [processSticks]
  repeat' split
  all_goals
    simp [processStickAsKeys_keys_other _ _ _ _ _ _ _ _ n1 n2 n3 n4,
      processStickAsKeys_keys_other _ _ _ _ _ _ _ _ n5 n6 n7 n8,
      processStickAsMouse_keys]

theorem processSnapshot_keys_big (fpow : ℚ → ℚ → ℚ) (c : ControllerMapping)
    (snap : InputSnapshot) (s : InputState) (hv : ValidConfig c) (k : ℕ) (hk : 256 ≤ k) :
    (processSnapshot fpow c snap s).2.keys k = s.keys k := by
  have hb : k ∉ (buttonEntries c).map Prod.snd := by
    obtain ⟨h1, h2, h3, h4, h5, h6, h7, h8, h9, h10, h11, h12, h13, h14, _⟩ := hv
    simp [buttonEntries]
    omega
  have ht1 : k ≠ c.triggers.left_trigger_key := by
    obtain ⟨_, _, _, _, _, _, _, _, _, _, _, _, _, _, _, _, _, _, hl, hr⟩ := hv
    omega
  have ht2 : k ≠ c.triggers.right_trigger_key := by
    obtain ⟨_, _, _, _, _, _, _, _, _, _, _, _, _, _, _, _, _, _, hl, hr⟩ := hv
    omega
  simp only [processSnapshot]
  rw [processSticks_keys_big _ _ _ _ _ _ _ hv k hk,
    processTriggers_keys_other _ _ _ _ k ht1 ht2,
    processButtons_keys_other _ _ _ k hb]

theorem processSnapshot_stateOK (fpow : ℚ → ℚ → ℚ) (c : ControllerMapping)
    (snap : InputSnapshot) (s : InputState) (hv : ValidConfig c) (h : StateOK s) :
    StateOK (processSnapshot fpow c snap s).2 := by
  obtain ⟨hm, hk⟩ := h
  exact ⟨by rw [processSnapshot_middle]; exact hm,
    fun k hk256 => by rw [processSnapshot_keys_big _ _ _ _ hv k hk256]; exact hk k hk256⟩

theorem processFrame_stateOK (fpow : ℚ → ℚ → ℚ) (c : ControllerMapping)
    (b : List ℕ) (s : InputState) (hv : ValidConfig c) (h : StateOK s) :
    StateOK (processFrame fpow c b s).2 := by
  simp only [processFrame]
  repeat' split
  all_goals first
    | exact h
    | exact processSnapshot_stateOK _ _ _ _ hv h

theorem processFrame_no_middle (fpow : ℚ → ℚ → ℚ) (c : ControllerMapping)
    (b : List ℕ) (s : InputState) :
    ∀ e ∈ (processFrame fpow c b s).1, eventTouchesMiddle e = false := by
  simp only [processFrame]
  repeat' split
  all_goals first
    | exact fun e he => absurd he (List.not_mem_nil e)
    | exact processSnapshot_no_middle _ _ _ _

theorem runLoop_stateOK (fpow : ℚ → ℚ → ℚ) (c : ControllerMapping)
    (reads : List ReadResult) (s : InputState) (hv : ValidConfig c) (h : StateOK s) :
    StateOK (runLoop fpow c reads s).2 := by
  induction reads generalizing s with
  | nil => exact h
  | cons r rest ih =>
      cases r with
      | ok b =>
          simp only [runLoop]
          exact ih _ (processFrame_stateOK _ _ _ _ hv h)
      | errCode code =>
          simp only [runLoop]
          repeat' split
          all_goals first | exact h | exact ih _ h

theorem runLoop_no_middle (fpow : ℚ → ℚ → ℚ) (c : ControllerMapping)
    (reads : List ReadResult) (s : InputState) :
    ∀ e ∈ (runLoop fpow c reads s).1, eventTouchesMiddle e = false := by
  induction reads generalizing s with
  | nil => exact fun e he => absurd he (List.not_mem_nil e)
  | cons r rest ih =>
      cases r with
      | ok b =>
          simp only [runLoop]
          intro e he
          rcases List.mem_append.mp he with h1 | h2
          · exact processFrame_no_middle _ _ _ _ e h1
          · exact ih _ e h2
      | errCode code =>
          simp only [runLoop]
          repeat' split
          all_goals first
            | exact fun e he => absurd he (List.not_mem_nil e)
            | exact ih _

theorem shutdownEvents_no_middle (s : InputState) :
    ∀ e ∈ shutdownEvents s, eventTouchesMiddle e = false := by
  intro e he
  simp only [shutdownEvents, List.mem_append] at he
  rcases he with (h | h) | h
  · obtain ⟨k, _, rfl⟩ := List.mem_map.mp h
    rfl
  · split at h
    · rw [List.mem_singleton] at h; subst h; rfl
    · exact absurd h (List.not_mem_nil e)
  · split at h
    · rw [List.mem_singleton] at h; subst h; rfl
    · exact absurd h (List.not_mem_nil e)

/-! Bit-level helpers for the button differencer. -/

theorem and_two_pow_ne (x p : ℕ) : (x &&& 2 ^ p ≠ 0) ↔ x.testBit p = true := by
  rw [Nat.and_two_pow]
  cases h : x.testBit p <;> simp [h]

theorem changed_iff (a b m p : ℕ) (hm : m = 2 ^ p) :
    (decide (b &&& m ≠ 0) ≠ decide (a &&& m ≠ 0)) ↔ ((a ^^^ b) &&& m ≠ 0) := by
  subst hm
  rw [Ne, decide_eq_decide, and_two_pow_ne, and_two_pow_ne, and_two_pow_ne, Nat.testBit_xor]
  cases ha : a.testBit p <;> cases hb : b.testBit p <;> simp [ha, hb]

theorem filterMap_congr_mem {α β : Type} {f g : α → Option β} :
    ∀ {l : List α}, (∀ a ∈ l, f a = g a) → l.filterMap f = l.filterMap g
  | [], _ => rfl
  | a :: l, h => by
      rw [List.filterMap_cons, List.filterMap_cons, h a (List.mem_cons_self a l),
        filterMap_congr_mem fun x hx => h x (List.mem_cons_of_mem a hx)]

theorem processButtons_fst_xor (c : ControllerMapping) (curr : ℕ) (s : InputState) :
    (processButtons c curr s).1 = (buttonEntries c).filterMap (fun e =>
      if (s.prev_buttons ^^^ curr) &&& e.1 ≠ 0 then
        some (Event.key e.2 (decide (curr &&& e.1 ≠ 0))) else none) := by
  rw [processButtons_fst]
  apply filterMap_congr_mem
  intro e he
  simp only [buttonEntries, List.mem_cons, List.not_mem_nil, or_false] at he
  rcases he with rfl|rfl|rfl|rfl|rfl|rfl|rfl|rfl|rfl|rfl|rfl|rfl|rfl|rfl <;> dsimp only <;>
    first
    | exact if_congr (changed_iff _ _ _ 2 (by decide)) rfl rfl
    | exact if_congr (changed_iff _ _ _ 3 (by decide)) rfl rfl
    | exact if_congr (changed_iff _ _ _ 4 (by decide)) rfl rfl
    | exact if_congr (changed_iff _ _ _ 5 (by decide)) rfl rfl
    | exact if_congr (changed_iff _ _ _ 6 (by decide)) rfl rfl
    | exact if_congr (changed_iff _ _ _ 7 (by decide)) rfl rfl
    | exact if_congr (changed_iff _ _ _ 8 (by decide)) rfl rfl
    | exact if_congr (changed_iff _ _ _ 9 (by decide)) rfl rfl
    | exact if_congr (changed_iff _ _ _ 10 (by decide)) rfl rfl
    | exact if_congr (changed_iff _ _ _ 11 (by decide)) rfl rfl
    | exact if_congr (changed_iff _ _ _ 12 (by decide)) rfl rfl
    | exact if_congr (changed_iff _ _ _ 13 (by decide)) rfl rfl
    | exact if_congr (changed_iff _ _ _ 14 (by decide)) rfl rfl
    | exact if_congr (changed_iff _ _ _ 15 (by decide)) rfl rfl
/-- C7: for every pair of button bitmasks that differ in exactly one of
the 14 mapped button bits, `process_buttons` emits exactly one key
transition, for the keycode configured for that button, with `pressed`
equal to the new bit value, and no other transition. -/
theorem c7_button_single_bit (c : ControllerMapping) (s : InputState) (curr : ℕ) :
    (s.prev_buttons ^^^ curr = XBOX_BTN_A →
      (processButtons c curr s).1 = [Event.key c.buttons.key_a (decide (curr &&& XBOX_BTN_A ≠ 0))]) ∧
    (s.prev_buttons ^^^ curr = XBOX_BTN_B →
      (processButtons c curr s).1 = [Event.key c.buttons.key_b (decide (curr &&& XBOX_BTN_B ≠ 0))]) ∧
    (s.prev_buttons ^^^ curr = XBOX_BTN_X →
      (processButtons c curr s).1 = [Event.key c.buttons.key_x (decide (curr &&& XBOX_BTN_X ≠ 0))]) ∧
    (s.prev_buttons ^^^ curr = XBOX_BTN_Y →
      (processButtons c curr s).1 = [Event.key c.buttons.key_y (decide (curr &&& XBOX_BTN_Y ≠ 0))]) ∧
    (s.prev_buttons ^^^ curr = XBOX_BTN_LB →
      (processButtons c curr s).1 = [Event.key c.buttons.key_lb (decide (curr &&& XBOX_BTN_LB ≠ 0))]) ∧
    (s.prev_buttons ^^^ curr = XBOX_BTN_RB →
      (processButtons c curr s).1 = [Event.key c.buttons.key_rb (decide (curr &&& XBOX_BTN_RB ≠ 0))]) ∧
    (s.prev_buttons ^^^ curr = XBOX_BTN_LS →
      (processButtons c curr s).1 = [Event.key c.buttons.key_ls (decide (curr &&& XBOX_BTN_LS ≠ 0))]) ∧
    (s.prev_buttons ^^^ curr = XBOX_BTN_RS →
      (processButtons c curr s).1 = [Event.key c.buttons.key_rs (decide (curr &&& XBOX_BTN_RS ≠ 0))]) ∧
    (s.prev_buttons ^^^ curr = XBOX_BTN_VIEW →
      (processButtons c curr s).1 = [Event.key c.buttons.key_view (decide (curr &&& XBOX_BTN_VIEW ≠ 0))]) ∧
    (s.prev_buttons ^^^ curr = XBOX_BTN_MENU →
      (processButtons c curr s).1 = [Event.key c.buttons.key_menu (decide (curr &&& XBOX_BTN_MENU ≠ 0))]) ∧
    (s.prev_buttons ^^^ curr = XBOX_BTN_DPAD_UP →
      (processButtons c curr s).1 = [Event.key c.buttons.key_dpad_up (decide (curr &&& XBOX_BTN_DPAD_UP ≠ 0))]) ∧
    (s.prev_buttons ^^^ curr = XBOX_BTN_DPAD_DOWN →
      (processButtons c curr s).1 = [Event.key c.buttons.key_dpad_down (decide (curr &&& XBOX_BTN_DPAD_DOWN ≠ 0))]) ∧
    (s.prev_buttons ^^^ curr = XBOX_BTN_DPAD_LEFT →
      (processButtons c curr s).1 = [Event.key c.buttons.key_dpad_left (decide (curr &&& XBOX_BTN_DPAD_LEFT ≠ 0))]) ∧
    (s.prev_buttons ^^^ curr = XBOX_BTN_DPAD_RIGHT →
      (processButtons c curr s).1 = [Event.key c.buttons.key_dpad_right (decide (curr &&& XBOX_BTN_DPAD_RIGHT ≠ 0))]) := by
  refine ⟨?_, ?_, ?_, ?_, ?_, ?_, ?_, ?_, ?_, ?_, ?_, ?_, ?_, ?_⟩
  · intro h
    rw [processButtons_fst_xor, h]
    simp [buttonEntries, XBOX_BTN_A, XBOX_BTN_B, XBOX_BTN_X, XBOX_BTN_Y, XBOX_BTN_LB, XBOX_BTN_RB, XBOX_BTN_LS, XBOX_BTN_RS, XBOX_BTN_VIEW, XBOX_BTN_MENU, XBOX_BTN_DPAD_UP, XBOX_BTN_DPAD_DOWN, XBOX_BTN_DPAD_LEFT, XBOX_BTN_DPAD_RIGHT,
      show ((16:ℕ) &&& 16) = 16 from by decide,
      show ((16:ℕ) &&& 32) = 0 from by decide,
      show ((16:ℕ) &&& 64) = 0 from by decide,
      show ((16:ℕ) &&& 128) = 0 from by decide,
      show ((16:ℕ) &&& 4096) = 0 from by decide,
      show ((16:ℕ) &&& 8192) = 0 from by decide,
      show ((16:ℕ) &&& 16384) = 0 from by decide,
      show ((16:ℕ) &&& 32768) = 0 from by decide,
      show ((16:ℕ) &&& 8) = 0 from by decide,
      show ((16:ℕ) &&& 4) = 0 from by decide,
      show ((16:ℕ) &&& 256) = 0 from by decide,
      show ((16:ℕ) &&& 512) = 0 from by decide,
      show ((16:ℕ) &&& 1024) = 0 from by decide,
      show ((16:ℕ) &&& 2048) = 0 from by decide]
  · intro h
    rw [processButtons_fst_xor, h]
    simp [buttonEntries, XBOX_BTN_A, XBOX_BTN_B, XBOX_BTN_X, XBOX_BTN_Y, XBOX_BTN_LB, XBOX_BTN_RB, XBOX_BTN_LS, XBOX_BTN_RS, XBOX_BTN_VIEW, XBOX_BTN_MENU, XBOX_BTN_DPAD_UP, XBOX_BTN_DPAD_DOWN, XBOX_BTN_DPAD_LEFT, XBOX_BTN_DPAD_RIGHT,
      show ((32:ℕ) &&& 16) = 0 from by decide,
      show ((32:ℕ) &&& 32) = 32 from by decide,
      show ((32:ℕ) &&& 64) = 0 from by decide,
      show ((32:ℕ) &&& 128) = 0 from by decide,
      show ((32:ℕ) &&& 4096) = 0 from by decide,
      show ((32:ℕ) &&& 8192) = 0 from by decide,
      show ((32:ℕ) &&& 16384) = 0 from by decide,
      show ((32:ℕ) &&& 32768) = 0 from by decide,
      show ((32:ℕ) &&& 8) = 0 from by decide,
      show ((32:ℕ) &&& 4) = 0 from by decide,
      show ((32:ℕ) &&& 256) = 0 from by decide,
      show ((32:ℕ) &&& 512) = 0 from by decide,
      show ((32:ℕ) &&& 1024) = 0 from by decide,
      show ((32:ℕ) &&& 2048) = 0 from by decide]
  · intro h
    rw [processButtons_fst_xor, h]
    simp [buttonEntries, XBOX_BTN_A, XBOX_BTN_B, XBOX_BTN_X, XBOX_BTN_Y, XBOX_BTN_LB, XBOX_BTN_RB, XBOX_BTN_LS, XBOX_BTN_RS, XBOX_BTN_VIEW, XBOX_BTN_MENU, XBOX_BTN_DPAD_UP, XBOX_BTN_DPAD_DOWN, XBOX_BTN_DPAD_LEFT, XBOX_BTN_DPAD_RIGHT,
      show ((64:ℕ) &&& 16) = 0 from by decide,
      show ((64:ℕ) &&& 32) = 0 from by decide,
      show ((64:ℕ) &&& 64) = 64 from by decide,
      show ((64:ℕ) &&& 128) = 0 from by decide,
      show ((64:ℕ) &&& 4096) = 0 from by decide,
      show ((64:ℕ) &&& 8192) = 0 from by decide,
      show ((64:ℕ) &&& 16384) = 0 from by decide,
      show ((64:ℕ) &&& 32768) = 0 from by decide,
      show ((64:ℕ) &&& 8) = 0 from by decide,
      show ((64:ℕ) &&& 4) = 0 from by decide,
      show ((64:ℕ) &&& 256) = 0 from by decide,
      show ((64:ℕ) &&& 512) = 0 from by decide,
      show ((64:ℕ) &&& 1024) = 0 from by decide,
      show ((64:ℕ) &&& 2048) = 0 from by decide]
  · intro h
    rw [processButtons_fst_xor, h]
    simp [buttonEntries, XBOX_BTN_A, XBOX_BTN_B, XBOX_BTN_X, XBOX_BTN_Y, XBOX_BTN_LB, XBOX_BTN_RB, XBOX_BTN_LS, XBOX_BTN_RS, XBOX_BTN_VIEW, XBOX_BTN_MENU, XBOX_BTN_DPAD_UP, XBOX_BTN_DPAD_DOWN, XBOX_BTN_DPAD_LEFT, XBOX_BTN_DPAD_RIGHT,
      show ((128:ℕ) &&& 16) = 0 from by decide,
      show ((128:ℕ) &&& 32) = 0 from by decide,
      show ((128:ℕ) &&& 64) = 0 from by decide,
      show ((128:ℕ) &&& 128) = 128 from by decide,
      show ((128:ℕ) &&& 4096) = 0 from by decide,
      show ((128:ℕ) &&& 8192) = 0 from by decide,
      show ((128:ℕ) &&& 16384) = 0 from by decide,
      show ((128:ℕ) &&& 32768) = 0 from by decide,
      show ((128:ℕ) &&& 8) = 0 from by decide,
      show ((128:ℕ) &&& 4) = 0 from by decide,
      show ((128:ℕ) &&& 256) = 0 from by decide,
      show ((128:ℕ) &&& 512) = 0 from by decide,
      show ((128:ℕ) &&& 1024) = 0 from by decide,
      show ((128:ℕ) &&& 2048) = 0 from by decide]
  · intro h
    rw [processButtons_fst_xor, h]
    simp [buttonEntries, XBOX_BTN_A, XBOX_BTN_B, XBOX_BTN_X, XBOX_BTN_Y, XBOX_BTN_LB, XBOX_BTN_RB, XBOX_BTN_LS, XBOX_BTN_RS, XBOX_BTN_VIEW, XBOX_BTN_MENU, XBOX_BTN_DPAD_UP, XBOX_BTN_DPAD_DOWN, XBOX_BTN_DPAD_LEFT, XBOX_BTN_DPAD_RIGHT,
      show ((4096:ℕ) &&& 16) = 0 from by decide,
      show ((4096:ℕ) &&& 32) = 0 from by decide,
      show ((4096:ℕ) &&& 64) = 0 from by decide,
      show ((4096:ℕ) &&& 128) = 0 from by decide,
      show ((4096:ℕ) &&& 4096) = 4096 from by decide,
      show ((4096:ℕ) &&& 8192) = 0 from by decide,
      show ((4096:ℕ) &&& 16384) = 0 from by decide,
      show ((4096:ℕ) &&& 32768) = 0 from by decide,
      show ((4096:ℕ) &&& 8) = 0 from by decide,
      show ((4096:ℕ) &&& 4) = 0 from by decide,
      show ((4096:ℕ) &&& 256) = 0 from by decide,
      show ((4096:ℕ) &&& 512) = 0 from by decide,
      show ((4096:ℕ) &&& 1024) = 0 from by decide,
      show ((4096:ℕ) &&& 2048) = 0 from by decide]
  · intro h
    rw [processButtons_fst_xor, h]
    simp [buttonEntries, XBOX_BTN_A, XBOX_BTN_B, XBOX_BTN_X, XBOX_BTN_Y, XBOX_BTN_LB, XBOX_BTN_RB, XBOX_BTN_LS, XBOX_BTN_RS, XBOX_BTN_VIEW, XBOX_BTN_MENU, XBOX_BTN_DPAD_UP, XBOX_BTN_DPAD_DOWN, XBOX_BTN_DPAD_LEFT, XBOX_BTN_DPAD_RIGHT,
      show ((8192:ℕ) &&& 16) = 0 from by decide,
      show ((8192:ℕ) &&& 32) = 0 from by decide,
      show ((8192:ℕ) &&& 64) = 0 from by decide,
      show ((8192:ℕ) &&& 128) = 0 from by decide,
      show ((8192:ℕ) &&& 4096) = 0 from by decide,
      show ((8192:ℕ) &&& 8192) = 8192 from by decide,
      show ((8192:ℕ) &&& 16384) = 0 from by decide,
      show ((8192:ℕ) &&& 32768) = 0 from by decide,
      show ((8192:ℕ) &&& 8) = 0 from by decide,
      show ((8192:ℕ) &&& 4) = 0 from by decide,
      show ((8192:ℕ) &&& 256) = 0 from by decide,
      show ((8192:ℕ) &&& 512) = 0 from by decide,
      show ((8192:ℕ) &&& 1024) = 0 from by decide,
      show ((8192:ℕ) &&& 2048) = 0 from by decide]
  · intro h
    rw [processButtons_fst_xor, h]
    simp [buttonEntries, XBOX_BTN_A, XBOX_BTN_B, XBOX_BTN_X, XBOX_BTN_Y, XBOX_BTN_LB, XBOX_BTN_RB, XBOX_BTN_LS, XBOX_BTN_RS, XBOX_BTN_VIEW, XBOX_BTN_MENU, XBOX_BTN_DPAD_UP, XBOX_BTN_DPAD_DOWN, XBOX_BTN_DPAD_LEFT, XBOX_BTN_DPAD_RIGHT,
      show ((16384:ℕ) &&& 16) = 0 from by decide,
      show ((16384:ℕ) &&& 32) = 0 from by decide,
      show ((16384:ℕ) &&& 64) = 0 from by decide,
      show ((16384:ℕ) &&& 128) = 0 from by decide,
      show ((16384:ℕ) &&& 4096) = 0 from by decide,
      show ((16384:ℕ) &&& 8192) = 0 from by decide,
      show ((16384:ℕ) &&& 16384) = 16384 from by decide,
      show ((16384:ℕ) &&& 32768) = 0 from by decide,
      show ((16384:ℕ) &&& 8) = 0 from by decide,
      show ((16384:ℕ) &&& 4) = 0 from by decide,
      show ((16384:ℕ) &&& 256) = 0 from by decide,
      show ((16384:ℕ) &&& 512) = 0 from by decide,
      show ((16384:ℕ) &&& 1024) = 0 from by decide,
      show ((16384:ℕ) &&& 2048) = 0 from by decide]
  · intro h
    rw [processButtons_fst_xor, h]
    simp [buttonEntries, XBOX_BTN_A, XBOX_BTN_B, XBOX_BTN_X, XBOX_BTN_Y, XBOX_BTN_LB, XBOX_BTN_RB, XBOX_BTN_LS, XBOX_BTN_RS, XBOX_BTN_VIEW, XBOX_BTN_MENU, XBOX_BTN_DPAD_UP, XBOX_BTN_DPAD_DOWN, XBOX_BTN_DPAD_LEFT, XBOX_BTN_DPAD_RIGHT,
      show ((32768:ℕ) &&& 16) = 0 from by decide,
      show ((32768:ℕ) &&& 32) = 0 from by decide,
      show ((32768:ℕ) &&& 64) = 0 from by decide,
      show ((32768:ℕ) &&& 128) = 0 from by decide,
      show ((32768:ℕ) &&& 4096) = 0 from by decide,
      show ((32768:ℕ) &&& 8192) = 0 from by decide,
      show ((32768:ℕ) &&& 16384) = 0 from by decide,
      show ((32768:ℕ) &&& 32768) = 32768 from by decide,
      show ((32768:ℕ) &&& 8) = 0 from by decide,
      show ((32768:ℕ) &&& 4) = 0 from by decide,
      show ((32768:ℕ) &&& 256) = 0 from by decide,
      show ((32768:ℕ) &&& 512) = 0 from by decide,
      show ((32768:ℕ) &&& 1024) = 0 from by decide,
      show ((32768:ℕ) &&& 2048) = 0 from by decide]
  · intro h
    rw [processButtons_fst_xor, h]
    simp [buttonEntries, XBOX_BTN_A, XBOX_BTN_B, XBOX_BTN_X, XBOX_BTN_Y, XBOX_BTN_LB, XBOX_BTN_RB, XBOX_BTN_LS, XBOX_BTN_RS, XBOX_BTN_VIEW, XBOX_BTN_MENU, XBOX_BTN_DPAD_UP, XBOX_BTN_DPAD_DOWN, XBOX_BTN_DPAD_LEFT, XBOX_BTN_DPAD_RIGHT,
      show ((8:ℕ) &&& 16) = 0 from by decide,
      show ((8:ℕ) &&& 32) = 0 from by decide,
      show ((8:ℕ) &&& 64) = 0 from by decide,
      show ((8:ℕ) &&& 128) = 0 from by decide,
      show ((8:ℕ) &&& 4096) = 0 from by decide,
      show ((8:ℕ) &&& 8192) = 0 from by decide,
      show ((8:ℕ) &&& 16384) = 0 from by decide,
      show ((8:ℕ) &&& 32768) = 0 from by decide,
      show ((8:ℕ) &&& 8) = 8 from by decide,
      show ((8:ℕ) &&& 4) = 0 from by decide,
      show ((8:ℕ) &&& 256) = 0 from by decide,
      show ((8:ℕ) &&& 512) = 0 from by decide,
      show ((8:ℕ) &&& 1024) = 0 from by decide,
      show ((8:ℕ) &&& 2048) = 0 from by decide]
  · intro h
    rw [processButtons_fst_xor, h]
    simp [buttonEntries, XBOX_BTN_A, XBOX_BTN_B, XBOX_BTN_X, XBOX_BTN_Y, XBOX_BTN_LB, XBOX_BTN_RB, XBOX_BTN_LS, XBOX_BTN_RS, XBOX_BTN_VIEW, XBOX_BTN_MENU, XBOX_BTN_DPAD_UP, XBOX_BTN_DPAD_DOWN, XBOX_BTN_DPAD_LEFT, XBOX_BTN_DPAD_RIGHT,
      show ((4:ℕ) &&& 16) = 0 from by decide,
      show ((4:ℕ) &&& 32) = 0 from by decide,
      show ((4:ℕ) &&& 64) = 0 from by decide,
      show ((4:ℕ) &&& 128) = 0 from by decide,
      show ((4:ℕ) &&& 4096) = 0 from by decide,
      show ((4:ℕ) &&& 8192) = 0 from by decide,
      show ((4:ℕ) &&& 16384) = 0 from by decide,
      show ((4:ℕ) &&& 32768) = 0 from by decide,
      show ((4:ℕ) &&& 8) = 0 from by decide,
      show ((4:ℕ) &&& 4) = 4 from by decide,
      show ((4:ℕ) &&& 256) = 0 from by decide,
      show ((4:ℕ) &&& 512) = 0 from by decide,
      show ((4:ℕ) &&& 1024) = 0 from by decide,
      show ((4:ℕ) &&& 2048) = 0 from by decide]
  · intro h
    rw [processButtons_fst_xor, h]
    simp [buttonEntries, XBOX_BTN_A, XBOX_BTN_B, XBOX_BTN_X, XBOX_BTN_Y, XBOX_BTN_LB, XBOX_BTN_RB, XBOX_BTN_LS, XBOX_BTN_RS, XBOX_BTN_VIEW, XBOX_BTN_MENU, XBOX_BTN_DPAD_UP, XBOX_BTN_DPAD_DOWN, XBOX_BTN_DPAD_LEFT, XBOX_BTN_DPAD_RIGHT,
      show ((256:ℕ) &&& 16) = 0 from by decide,
      show ((256:ℕ) &&& 32) = 0 from by decide,
      show ((256:ℕ) &&& 64) = 0 from by decide,
      show ((256:ℕ) &&& 128) = 0 from by decide,
      show ((256:ℕ) &&& 4096) = 0 from by decide,
      show ((256:ℕ) &&& 8192) = 0 from by decide,
      show ((256:ℕ) &&& 16384) = 0 from by decide,
      show ((256:ℕ) &&& 32768) = 0 from by decide,
      show ((256:ℕ) &&& 8) = 0 from by decide,
      show ((256:ℕ) &&& 4) = 0 from by decide,
      show ((256:ℕ) &&& 256) = 256 from by decide,
      show ((256:ℕ) &&& 512) = 0 from by decide,
      show ((256:ℕ) &&& 1024) = 0 from by decide,
      show ((256:ℕ) &&& 2048) = 0 from by decide]
  · intro h
    rw [processButtons_fst_xor, h]
    simp [buttonEntries, XBOX_BTN_A, XBOX_BTN_B, XBOX_BTN_X, XBOX_BTN_Y, XBOX_BTN_LB, XBOX_BTN_RB, XBOX_BTN_LS, XBOX_BTN_RS, XBOX_BTN_VIEW, XBOX_BTN_MENU, XBOX_BTN_DPAD_UP, XBOX_BTN_DPAD_DOWN, XBOX_BTN_DPAD_LEFT, XBOX_BTN_DPAD_RIGHT,
      show ((512:ℕ) &&& 16) = 0 from by decide,
      show ((512:ℕ) &&& 32) = 0 from by decide,
      show ((512:ℕ) &&& 64) = 0 from by decide,
      show ((512:ℕ) &&& 128) = 0 from by decide,
      show ((512:ℕ) &&& 4096) = 0 from by decide,
      show ((512:ℕ) &&& 8192) = 0 from by decide,
      show ((512:ℕ) &&& 16384) = 0 from by decide,
      show ((512:ℕ) &&& 32768) = 0 from by decide,
      show ((512:ℕ) &&& 8) = 0 from by decide,
      show ((512:ℕ) &&& 4) = 0 from by decide,
      show ((512:ℕ) &&& 256) = 0 from by decide,
      show ((512:ℕ) &&& 512) = 512 from by decide,
      show ((512:ℕ) &&& 1024) = 0 from by decide,
      show ((512:ℕ) &&& 2048) = 0 from by decide]
  · intro h
    rw [processButtons_fst_xor, h]
    simp [buttonEntries, XBOX_BTN_A, XBOX_BTN_B, XBOX_BTN_X, XBOX_BTN_Y, XBOX_BTN_LB, XBOX_BTN_RB, XBOX_BTN_LS, XBOX_BTN_RS, XBOX_BTN_VIEW, XBOX_BTN_MENU, XBOX_BTN_DPAD_UP, XBOX_BTN_DPAD_DOWN, XBOX_BTN_DPAD_LEFT, XBOX_BTN_DPAD_RIGHT,
      show ((1024:ℕ) &&& 16) = 0 from by decide,
      show ((1024:ℕ) &&& 32) = 0 from by decide,
      show ((1024:ℕ) &&& 64) = 0 from by decide,
      show ((1024:ℕ) &&& 128) = 0 from by decide,
      show ((1024:ℕ) &&& 4096) = 0 from by decide,
      show ((1024:ℕ) &&& 8192) = 0 from by decide,
      show ((1024:ℕ) &&& 16384) = 0 from by decide,
      show ((1024:ℕ) &&& 32768) = 0 from by decide,
      show ((1024:ℕ) &&& 8) = 0 from by decide,
      show ((1024:ℕ) &&& 4) = 0 from by decide,
      show ((1024:ℕ) &&& 256) = 0 from by decide,
      show ((1024:ℕ) &&& 512) = 0 from by decide,
      show ((1024:ℕ) &&& 1024) = 1024 from by decide,
      show ((1024:ℕ) &&& 2048) = 0 from by decide]
  · intro h
    rw [processButtons_fst_xor, h]
    simp [buttonEntries, XBOX_BTN_A, XBOX_BTN_B, XBOX_BTN_X, XBOX_BTN_Y, XBOX_BTN_LB, XBOX_BTN_RB, XBOX_BTN_LS, XBOX_BTN_RS, XBOX_BTN_VIEW, XBOX_BTN_MENU, XBOX_BTN_DPAD_UP, XBOX_BTN_DPAD_DOWN, XBOX_BTN_DPAD_LEFT, XBOX_BTN_DPAD_RIGHT,
      show ((2048:ℕ) &&& 16) = 0 from by decide,
      show ((2048:ℕ) &&& 32) = 0 from by decide,
      show ((2048:ℕ) &&& 64) = 0 from by decide,
      show ((2048:ℕ) &&& 128) = 0 from by decide,
      show ((2048:ℕ) &&& 4096) = 0 from by decide,
      show ((2048:ℕ) &&& 8192) = 0 from by decide,
      show ((2048:ℕ) &&& 16384) = 0 from by decide,
      show ((2048:ℕ) &&& 32768) = 0 from by decide,
      show ((2048:ℕ) &&& 8) = 0 from by decide,
      show ((2048:ℕ) &&& 4) = 0 from by decide,
      show ((2048:ℕ) &&& 256) = 0 from by decide,
      show ((2048:ℕ) &&& 512) = 0 from by decide,
      show ((2048:ℕ) &&& 1024) = 0 from by decide,
      show ((2048:ℕ) &&& 2048) = 2048 from by decide]

/-! Middle-button invariant and error-handling claim theorems. -/

theorem processFrame_middle (fpow : ℚ → ℚ → ℚ) (c : ControllerMapping)
    (b : List ℕ) (s : InputState) :
    (processFrame fpow c b s).2.mouse_middle = s.mouse_middle := by
  simp only [processFrame]
  repeat' split
  all_goals first | rfl | exact processSnapshot_middle _ _ _ _

theorem runLoop_middle (fpow : ℚ → ℚ → ℚ) (c : ControllerMapping)
    (reads : List ReadResult) (s : InputState) :
    (runLoop fpow c reads s).2.mouse_middle = s.mouse_middle := by
  induction reads generalizing s with
  | nil => rfl
  | cons r rest ih =>
      cases r with
      | ok b =>
          simp only [runLoop]
          rw [ih, processFrame_middle]
      | errCode code =>
          simp only [runLoop]
          repeat' split
          all_goals first | rfl | exact ih _

/-- C10: in every state reachable from the initial all-released state by
any sequence of read-loop cycles, the middle-mouse hold flag is false, and
no middle pointer-button press or release event is ever emitted, neither
during processing nor by the shutdown release pass. -/
theorem c10_middle_never (fpow : ℚ → ℚ → ℚ) (c : ControllerMapping)
    (reads : List ReadResult) :
    (runLoop fpow c reads initState).2.mouse_middle = false ∧
    (∀ e ∈ runProgram fpow c reads, eventTouchesMiddle e = false) := by
  constructor
  · rw [runLoop_middle]
    rfl
  · intro e he
    have hsplit : runProgram fpow c reads =
        (runLoop fpow c reads initState).1 ++
          shutdownEvents (runLoop fpow c reads initState).2 := rfl
    rw [hsplit] at he
    rcases List.mem_append.mp he with h | h
    · exact runLoop_no_middle _ _ _ _ e h
    · exact shutdownEvents_no_middle _ e h

/-- C3 counterexample: the non-timeout error -1 (`LIBUSB_ERROR_IO`) does
not terminate the read loop: a well-formed Input frame that follows it is
still processed and produces events, where termination at the error would
produce none.  This refutes the claim that every non-timeout read error is
fatal. -/
theorem c3_cex :
    (-1 : ℤ) ≠ LIBUSB_ERROR_TIMEOUT ∧
    (runLoop powZero get_default_mapping
        [ReadResult.errCode (-1), ReadResult.ok frameABX] initState).1 =
      [Event.key 0x31 true, Event.key 0x08 true, Event.key 0x0F true] :=
  ⟨by decide, by decide⟩

/-- C3 amended: a read timeout skips the cycle with nothing emitted and
the loop continues; the device-absent error `LIBUSB_ERROR_NO_DEVICE` is
the one error that terminates the loop; every other non-timeout error is
ignored and the loop continues; and the shutdown release pass runs on the
state the loop ended in, whatever ended it. -/
theorem c3_amended (fpow : ℚ → ℚ → ℚ) (c : ControllerMapping)
    (rest : List ReadResult) (s : InputState) (code : ℤ) :
    runLoop fpow c (ReadResult.errCode LIBUSB_ERROR_TIMEOUT :: rest) s =
      runLoop fpow c rest s ∧
    runLoop fpow c (ReadResult.errCode LIBUSB_ERROR_NO_DEVICE :: rest) s = ([], s) ∧
    (code ≠ LIBUSB_ERROR_TIMEOUT → code ≠ LIBUSB_ERROR_NO_DEVICE →
      runLoop fpow c (ReadResult.errCode code :: rest) s = runLoop fpow c rest s) ∧
    (∀ reads : List ReadResult, runProgram fpow c reads =
      (runLoop fpow c reads initState).1 ++
        shutdownEvents (runLoop fpow c reads initState).2) := by
  refine ⟨?_, ?_, ?_, fun reads => rfl⟩
  · simp only [runLoop]
    rw [if_neg (by simp)]
  · simp only [runLoop]
    rw [if_pos (by decide)]
    simp
  · intro hn1 hn2
    simp only [runLoop]
    rw [if_pos hn1, if_neg hn2]

/-- Witness for `c3_amended` at the concrete error code -1. -/
theorem c3_amended_witness :
    ((-1 : ℤ) ≠ LIBUSB_ERROR_TIMEOUT ∧ (-1 : ℤ) ≠ LIBUSB_ERROR_NO_DEVICE) ∧
    runLoop powZero get_default_mapping [ReadResult.errCode (-1)] initState =
      runLoop powZero get_default_mapping [] initState :=
  ⟨⟨by decide, by decide⟩,
    (c3_amended powZero get_default_mapping [] initState (-1)).2.2.1 (by decide) (by decide)⟩

/-- C4 counterexample: a 16-byte Input frame whose declared payload-length
byte is 255, exceeding the 12 bytes remaining after the header, is not
rejected: it is processed, emits a press event and updates the previous
snapshot.  The code never consults the declared length byte. -/
theorem c4_cex :
    frameBadLen.getD 3 0 = 255 ∧
    frameBadLen.length = 16 ∧
    255 > frameBadLen.length - gipHeaderSize ∧
    (processFrame powZero get_default_mapping frameBadLen initState).1 =
      [Event.key 0x31 true] ∧
    (processFrame powZero get_default_mapping frameBadLen initState).2.prev_buttons = 0x10 :=
  ⟨by decide, by decide, by decide, by decide, by decide⟩

/-- C4 amended: every received frame shorter than the full
`GipInputPacket` size is rejected: it produces no events and no state
change, and the read loop continues with the next cycle.  (The declared
payload-length byte is never checked against the remaining buffer.) -/
theorem c4_amended (fpow : ℚ → ℚ → ℚ) (c : ControllerMapping) (b : List ℕ)
    (s : InputState) (rest : List ReadResult) (h : b.length < gipInputPacketSize) :
    processFrame fpow c b s = ([], s) ∧
    runLoop fpow c (ReadResult.ok b :: rest) s = runLoop fpow c rest s := by
  have h1 : processFrame fpow c b s = ([], s) := by
    simp only [processFrame]
    split
    · rw [if_neg fun hc => absurd hc.2 (by omega)]
    · rfl
  refine ⟨h1, ?_⟩
  simp only [runLoop, h1, List.nil_append]

/-- Witness for `c4_amended` on a concrete 4-byte Input frame. -/
theorem c4_amended_witness :
    ([0x20, 0x20, 0x00, 0x09] : List ℕ).length < gipInputPacketSize ∧
    processFrame powZero get_default_mapping [0x20, 0x20, 0x00, 0x09] initState =
      ([], initState) :=
  ⟨by decide,
    (c4_amended powZero get_default_mapping [0x20, 0x20, 0x00, 0x09] initState []
      (by decide)).1⟩

/-- C5: with the right stick configured in WASD digital mode and pushed
fully up physically, `process_sticks` emits the press for the LEFT
stick's configured up keycode 0x0D (W), not the right stick's configured
`right_up` keycode 0x22 (I) that `keymapping.h` documents as used in
non-mouse modes: lines 293-296 pass the left keycodes for the right
stick. -/
theorem c5_right_stick_uses_left_keycodes :
    (processSticks powZero cfgRightWasd 0 0 32767 0 initState).1 = [Event.key 0x0D true] ∧
    cfgRightWasd.sticks.left_up = 0x0D ∧
    cfgRightWasd.sticks.right_up = 0x22 ∧
    Event.key 0x22 true ∉ (processSticks powZero cfgRightWasd 0 0 32767 0 initState).1 :=
  ⟨by decide, by decide, by decide, by decide⟩

/-! Trigger claim theorems. -/

/-- C2: with wire-left = 200, wire-right = 50 and threshold 127, starting
from a released previous trigger state, `process_triggers` treats the
wire's left byte as the right physical trigger's value: it emits exactly
the press transition for the right trigger's configured binding and
nothing for the left trigger, and stores the swapped bytes as the
previous trigger state (`prev_right_trigger` = wire-left = 200,
`prev_left_trigger` = wire-right = 50). -/
theorem c2_trigger_swap (c : ControllerMapping) (s : InputState)
    (ht : c.triggers.threshold = 127)
    (h1 : s.prev_right_trigger ≤ 127) (h2 : s.prev_left_trigger ≤ 127) :
    (processTriggers c 200 50 s).1 = rightTriggerPressEvents c ∧
    (c.triggers.right_trigger_mode ≠ TriggerMode.disabled →
      (rightTriggerPressEvents c).length = 1) ∧
    (processTriggers c 200 50 s).2.prev_right_trigger = 200 ∧
    (processTriggers c 200 50 s).2.prev_left_trigger = 50 := by
  have e1 : (decide ((200:ℕ) > c.triggers.threshold) : Bool) = true := by
    rw [ht]; decide
  have e2 : (decide (s.prev_right_trigger > c.triggers.threshold) : Bool) = false := by
    rw [ht]; simp; omega
  have e3 : (decide ((50:ℕ) > c.triggers.threshold) : Bool) = false := by
    rw [ht]; decide
  have e4 : (decide (s.prev_left_trigger > c.triggers.threshold) : Bool) = false := by
    rw [ht]; simp; omega
  refine ⟨?_, ?_, (processTriggers_prev c 200 50 s).2, (processTriggers_prev c 200 50 s).1⟩
  · cases hm : c.triggers.right_trigger_mode <;>
      simp [processTriggers, e1, e2, e3, e4, hm, rightTriggerPressEvents]
  · intro hd
    cases hm : c.triggers.right_trigger_mode <;>
      simp [rightTriggerPressEvents, hm]
    rw [hm] at hd
    exact absurd rfl hd

/-- Witness for `c2_trigger_swap` at the default configuration. -/
theorem c2_trigger_swap_witness :
    (get_default_mapping.triggers.threshold = 127 ∧
      initState.prev_right_trigger ≤ 127 ∧ initState.prev_left_trigger ≤ 127) ∧
    (processTriggers get_default_mapping 200 50 initState).1 =
      rightTriggerPressEvents get_default_mapping :=
  ⟨⟨by decide, by decide, by decide⟩,
    (c2_trigger_swap get_default_mapping initState (by decide) (by decide) (by decide)).1⟩

/-- C6: the trigger threshold comparison is strict: for every configured
threshold `t`, a trigger value exactly `t` produces no transition at all
from a released previous state, while `t + 1` (representable in a byte by
the hypothesis `t < 255`) produces exactly the press for that trigger's
binding when its mode emits (Key or Mouse); this holds for both physical
triggers through their swapped wire bytes. -/
theorem c6_threshold_strict (c : ControllerMapping) (s : InputState) (t : ℕ)
    (ht : c.triggers.threshold = t) (_hb : t < 255)
    (h1 : s.prev_right_trigger ≤ t) (h2 : s.prev_left_trigger ≤ t) :
    (processTriggers c t 0 s).1 = [] ∧
    (processTriggers c (t + 1) 0 s).1 = rightTriggerPressEvents c ∧
    (processTriggers c 0 t s).1 = [] ∧
    (processTriggers c 0 (t + 1) s).1 = leftTriggerPressEvents c ∧
    (c.triggers.right_trigger_mode ≠ TriggerMode.disabled →
      (rightTriggerPressEvents c).length = 1) ∧
    (c.triggers.left_trigger_mode ≠ TriggerMode.disabled →
      (leftTriggerPressEvents c).length = 1) := by
  have eT : (decide (t > c.triggers.threshold) : Bool) = false := by
    rw [ht]; simp
  have eT1 : (decide (t + 1 > c.triggers.threshold) : Bool) = true := by
    rw [ht]; simp
  have eZ : (decide ((0:ℕ) > c.triggers.threshold) : Bool) = false := by
    rw [ht]; simp
  have eR : (decide (s.prev_right_trigger > c.triggers.threshold) : Bool) = false := by
    rw [ht]; simp; omega
  have eL : (decide (s.prev_left_trigger > c.triggers.threshold) : Bool) = false := by
    rw [ht]; simp; omega
  refine ⟨?_, ?_, ?_, ?_, ?_, ?_⟩
  · simp [processTriggers, eT, eZ, eR, eL]
  · cases hm : c.triggers.right_trigger_mode <;>
      simp [processTriggers, eT1, eZ, eR, eL, hm, rightTriggerPressEvents]
  · simp [processTriggers, eT, eZ, eR, eL]
  · cases hm : c.triggers.left_trigger_mode <;>
      simp [processTriggers, eT1, eZ, eR, eL, hm, leftTriggerPressEvents]
  · intro hd
    cases hm : c.triggers.right_trigger_mode <;>
      simp [rightTriggerPressEvents, hm]
    rw [hm] at hd
    exact absurd rfl hd
  · intro hd
    cases hm : c.triggers.left_trigger_mode <;>
      simp [leftTriggerPressEvents, hm]
    rw [hm] at hd
    exact absurd rfl hd

/-- Witness for `c6_threshold_strict` at the default threshold 127. -/
theorem c6_threshold_strict_witness :
    (get_default_mapping.triggers.threshold = 127 ∧ (127 : ℕ) < 255 ∧
      initState.prev_right_trigger ≤ 127 ∧ initState.prev_left_trigger ≤ 127) ∧
    (processTriggers get_default_mapping 127 0 initState).1 = [] ∧
    (processTriggers get_default_mapping 128 0 initState).1 =
      rightTriggerPressEvents get_default_mapping :=
  ⟨⟨by decide, by decide, by decide, by decide⟩,
    (c6_threshold_strict get_default_mapping initState 127 (by decide) (by decide)
      (by decide) (by decide)).1,
    (c6_threshold_strict get_default_mapping initState 127 (by decide) (by decide)
      (by decide) (by decide)).2.1⟩

/-- Witness for `c7_button_single_bit`: bitmask 0x0000 to 0x0010 (the A
bit) with the default mapping yields the single transition
`(0x31, pressed=true)`. -/
theorem c7_button_single_bit_witness :
    (initState.prev_buttons ^^^ 0x10 = XBOX_BTN_A) ∧
    (processButtons get_default_mapping 0x10 initState).1 = [Event.key 0x31 true] :=
  ⟨by decide,
    ((c7_button_single_bit get_default_mapping initState 0x10).1 (by decide)).trans
      (by decide)⟩

/-! Deadzone claim theorems. -/

theorem scaleToBoundary_sq (v : ℤ) (S : ℕ) :
    (scaleToBoundary v S) ^ 2 = ((Nat.sqrt ((v.natAbs * 32767) ^ 2 / S) : ℕ) : ℤ) ^ 2 := by
  simp only [scaleToBoundary]
  split <;> ring

/-- C8 counterexample: at the raw vector (-32768, -32768), whose magnitude
exceeds 32767, the rescaled vector is (-23169, -23169), whose squared
magnitude is not 32767^2: the int16 truncation of the proportional rescale
leaves the vector strictly inside the boundary, not on it. -/
theorem c8_cex :
    ((-32768 : ℤ) * (-32768) + (-32768) * (-32768) > 32767 * 32767) ∧
    applyDeadzone (-32768) (-32768) 8000 = (-23169, -23169) ∧
    ((-23169 : ℤ)) ^ 2 + ((-23169 : ℤ)) ^ 2 ≠ 32767 ^ 2 := by
  have hs : Nat.sqrt (((-32768 : ℤ).natAbs * 32767) ^ 2 / 2147483648) = 23169 := by
    have harg : (((-32768 : ℤ).natAbs * 32767) ^ 2 / 2147483648 : ℕ) = 536838144 := by
      norm_num
    rw [harg]
    exact (Nat.eq_sqrt.mpr ⟨by norm_num, by norm_num⟩).symm
  refine ⟨by norm_num, ?_, by norm_num⟩
  have htn : ((-32768 : ℤ) * (-32768) + (-32768) * (-32768)).toNat = 2147483648 := by
    decide
  simp only [applyDeadzone]
  rw [if_neg (by norm_num), if_pos (by norm_num), htn]
  simp only [scaleToBoundary, hs]
  rw [if_pos (by norm_num)]
  rfl

/-- C8 amended: for every raw stick vector whose Euclidean magnitude is
strictly below the configured deadzone (squared comparison), apply_deadzone
zeroes both axes, the digital direction booleans at the zero vector are all
false, and the pointer-mode path contributes exactly (0, 0) to the mouse
delta accumulator (given powf 0 curve = 0, the behavior of libm powf for a
positive curve exponent); for vectors whose magnitude exceeds 32767, the
axes are rescaled proportionally so that the resulting vector lies within
or on the 32767 boundary (magnitude at most 32767; the truncation to
integers means it need not lie exactly on it). -/
theorem c8_deadzone_and_boundary (fpow : ℚ → ℚ → ℚ) (c : ControllerMapping)
    (s : InputState) (x y : ℤ) (d : ℕ) :
    (x * x + y * y < (d : ℤ) * (d : ℤ) →
      applyDeadzone x y d = (0, 0) ∧
      stickDirections 0 0 = (false, false, false, false) ∧
      (fpow 0 c.sticks.mouse_curve = 0 →
        (processStickAsMouse fpow c 0 0 s).mouse_dx = s.mouse_dx ∧
        (processStickAsMouse fpow c 0 0 s).mouse_dy = s.mouse_dy)) ∧
    (x * x + y * y > 32767 * 32767 →
      (applyDeadzone x y d).1 ^ 2 + (applyDeadzone x y d).2 ^ 2 ≤ 32767 ^ 2) := by
  constructor
  · intro h
    refine ⟨by simp only [applyDeadzone]; rw [if_pos h], by decide, ?_⟩
    intro hf
    have hm : (mkRat 0 32767 : ℚ) = 0 := by decide
    have hneg : (mkRat (-0) 32767 : ℚ) = 0 := by decide
    simp only [processStickAsMouse, hm, hneg, abs_zero, hf, ratMul_eq, ratAdd_eq]
    norm_num
  · intro h
    by_cases h1 : x * x + y * y < (d : ℤ) * (d : ℤ)
    · simp only [applyDeadzone]
      rw [if_pos h1]
      norm_num
    · simp only [applyDeadzone]
      rw [if_neg h1, if_pos h]
      set S := (x * x + y * y).toNat with hSdef
      have hScast : (S : ℤ) = x * x + y * y := by
        rw [hSdef]
        exact Int.toNat_of_nonneg (by positivity)
      have hS : 0 < S := by
        have : (32767 : ℤ) * 32767 < (S : ℤ) := by rw [hScast]; exact h
        by_contra hc
        push_neg at hc
        interval_cases S
        · norm_num at this
      have hA : (x.natAbs * 32767) ^ 2 + (y.natAbs * 32767) ^ 2 = 32767 ^ 2 * S := by
        have : ((x.natAbs * 32767) ^ 2 + (y.natAbs * 32767) ^ 2 : ℤ) =
            32767 ^ 2 * (S : ℤ) := by
          rw [hScast]
          push_cast [Int.natAbs_sq]
          rw [mul_pow, mul_pow, sq_abs, sq_abs]
          ring
        exact_mod_cast this
      have hsum : Nat.sqrt ((x.natAbs * 32767) ^ 2 / S) ^ 2 +
          Nat.sqrt ((y.natAbs * 32767) ^ 2 / S) ^ 2 ≤ 32767 ^ 2 := by
        calc Nat.sqrt ((x.natAbs * 32767) ^ 2 / S) ^ 2 +
            Nat.sqrt ((y.natAbs * 32767) ^ 2 / S) ^ 2
            ≤ (x.natAbs * 32767) ^ 2 / S + (y.natAbs * 32767) ^ 2 / S :=
              Nat.add_le_add (Nat.sqrt_le' _) (Nat.sqrt_le' _)
          _ ≤ ((x.natAbs * 32767) ^ 2 + (y.natAbs * 32767) ^ 2) / S :=
              Nat.add_div_le_add_div _ _ _
          _ = 32767 ^ 2 * S / S := by rw [hA]
          _ = 32767 ^ 2 := Nat.mul_div_cancel _ hS
      rw [scaleToBoundary_sq, scaleToBoundary_sq]
      exact_mod_cast hsum

/-- Witness for `c8_deadzone_and_boundary` at (100, 100) with deadzone
8000, and at (-32768, -32768) for the boundary part. -/
theorem c8_deadzone_and_boundary_witness :
    ((100 : ℤ) * 100 + 100 * 100 < ((8000 : ℕ) : ℤ) * ((8000 : ℕ) : ℤ) ∧
      applyDeadzone 100 100 8000 = (0, 0)) ∧
    (powZero 0 get_default_mapping.sticks.mouse_curve = 0 ∧
      (processStickAsMouse powZero get_default_mapping 0 0 initState).mouse_dx =
        initState.mouse_dx) ∧
    ((-32768 : ℤ) * (-32768) + (-32768) * (-32768) > 32767 * 32767 ∧
      (applyDeadzone (-32768) (-32768) 8000).1 ^ 2 +
        (applyDeadzone (-32768) (-32768) 8000).2 ^ 2 ≤ 32767 ^ 2) :=
  ⟨⟨by decide,
      ((c8_deadzone_and_boundary powZero get_default_mapping initState 100 100 8000).1
        (by decide)).1⟩,
   ⟨rfl,
      (((c8_deadzone_and_boundary powZero get_default_mapping initState 100 100 8000).1
        (by decide)).2.2 rfl).1⟩,
   ⟨by decide,
      (c8_deadzone_and_boundary powZero get_default_mapping initState (-32768) (-32768)
        8000).2 (by decide)⟩⟩

/-! Idempotence claim theorems. -/

theorem flushState_keys (t : InputState) :
    ((if t.mouse_dx ≠ 0 ∨ t.mouse_dy ≠ 0 then
        ([Event.mouseMove t.mouse_dx t.mouse_dy], { t with mouse_dx := 0, mouse_dy := 0 })
      else (([] : List Event), t)).2).keys = t.keys := by
  split <;> rfl

theorem flushState_filter (t : InputState) :
    ((if t.mouse_dx ≠ 0 ∨ t.mouse_dy ≠ 0 then
        ([Event.mouseMove t.mouse_dx t.mouse_dy], { t with mouse_dx := 0, mouse_dy := 0 })
      else (([] : List Event), t)).1).filter eventIsKeyOrButton = [] := by
  split <;> rfl

theorem nodup4 {a b c d : ℕ} (h : ([a, b, c, d] : List ℕ).Nodup) :
    a ≠ b ∧ a ≠ c ∧ a ≠ d ∧ b ≠ c ∧ b ≠ d ∧ c ≠ d := by
  simp [List.nodup_cons, List.mem_cons] at h
  tauto

theorem processSticks_noop_filter (fpow : ℚ → ℚ → ℚ) (c : ControllerMapping)
    (lx ly rx ry : ℤ) (s : InputState)
    (hLw : c.sticks.left_stick_mode = StickMode.wasd →
      s.keys c.sticks.left_up = (stickDirections (applyDeadzone lx ly c.sticks.deadzone).1
          (applyDeadzone lx ly c.sticks.deadzone).2).1 ∧
      s.keys c.sticks.left_down = (stickDirections (applyDeadzone lx ly c.sticks.deadzone).1
          (applyDeadzone lx ly c.sticks.deadzone).2).2.1 ∧
      s.keys c.sticks.left_left = (stickDirections (applyDeadzone lx ly c.sticks.deadzone).1
          (applyDeadzone lx ly c.sticks.deadzone).2).2.2.1 ∧
      s.keys c.sticks.left_right = (stickDirections (applyDeadzone lx ly c.sticks.deadzone).1
          (applyDeadzone lx ly c.sticks.deadzone).2).2.2.2)
    (hLa : c.sticks.left_stick_mode = StickMode.arrows →
      s.keys 0x7E = (stickDirections (applyDeadzone lx ly c.sticks.deadzone).1
          (applyDeadzone lx ly c.sticks.deadzone).2).1 ∧
      s.keys 0x7D = (stickDirections (applyDeadzone lx ly c.sticks.deadzone).1
          (applyDeadzone lx ly c.sticks.deadzone).2).2.1 ∧
      s.keys 0x7B = (stickDirections (applyDeadzone lx ly c.sticks.deadzone).1
          (applyDeadzone lx ly c.sticks.deadzone).2).2.2.1 ∧
      s.keys 0x7C = (stickDirections (applyDeadzone lx ly c.sticks.deadzone).1
          (applyDeadzone lx ly c.sticks.deadzone).2).2.2.2)
    (hRw : c.sticks.right_stick_mode = StickMode.wasd →
      s.keys c.sticks.left_up = (stickDirections (applyDeadzone rx ry c.sticks.deadzone).1
          (applyDeadzone rx ry c.sticks.deadzone).2).1 ∧
      s.keys c.sticks.left_down = (stickDirections (applyDeadzone rx ry c.sticks.deadzone).1
          (applyDeadzone rx ry c.sticks.deadzone).2).2.1 ∧
      s.keys c.sticks.left_left = (stickDirections (applyDeadzone rx ry c.sticks.deadzone).1
          (applyDeadzone rx ry c.sticks.deadzone).2).2.2.1 ∧
      s.keys c.sticks.left_right = (stickDirections (applyDeadzone rx ry c.sticks.deadzone).1
          (applyDeadzone rx ry c.sticks.deadzone).2).2.2.2)
    (hRa : c.sticks.right_stick_mode = StickMode.arrows →
      s.keys 0x7E = (stickDirections (applyDeadzone rx ry c.sticks.deadzone).1
          (applyDeadzone rx ry c.sticks.deadzone).2).1 ∧
      s.keys 0x7D = (stickDirections (applyDeadzone rx ry c.sticks.deadzone).1
          (applyDeadzone rx ry c.sticks.deadzone).2).2.1 ∧
      s.keys 0x7B = (stickDirections (applyDeadzone rx ry c.sticks.deadzone).1
          (applyDeadzone rx ry c.sticks.deadzone).2).2.2.1 ∧
      s.keys 0x7C = (stickDirections (applyDeadzone rx ry c.sticks.deadzone).1
          (applyDeadzone rx ry c.sticks.deadzone).2).2.2.2) :
    (processSticks fpow c lx ly rx ry s).1.filter eventIsKeyOrButton = [] := by
  simp only [processSticks]
  cases hL : c.sticks.left_stick_mode <;> cases hR : c.sticks.right_stick_mode
  case wasd.wasd =>
    obtain ⟨u1, u2, u3, u4⟩ := hLw hL
    obtain ⟨v1, v2, v3, v4⟩ := hRw hR
    rw [processStickAsKeys_noop _ _ _ _ _ _ _ u1 u2 u3 u4]
    rw [processStickAsKeys_noop _ _ _ _ _ _ _ v1 v2 v3 v4]
    simp [List.filter_append, flushState_filter, eventIsKeyOrButton]
  case wasd.arrows =>
    obtain ⟨u1, u2, u3, u4⟩ := hLw hL
    obtain ⟨v1, v2, v3, v4⟩ := hRa hR
    rw [processStickAsKeys_noop _ _ _ _ _ _ _ u1 u2 u3 u4]
    rw [processStickAsKeys_noop _ _ _ _ _ _ _ v1 v2 v3 v4]
    simp [List.filter_append, flushState_filter, eventIsKeyOrButton]
  case wasd.mouse =>
    obtain ⟨u1, u2, u3, u4⟩ := hLw hL
    rw [processStickAsKeys_noop _ _ _ _ _ _ _ u1 u2 u3 u4]
    simp [List.filter_append, flushState_filter, eventIsKeyOrButton]
  case wasd.disabled =>
    obtain ⟨u1, u2, u3, u4⟩ := hLw hL
    rw [processStickAsKeys_noop _ _ _ _ _ _ _ u1 u2 u3 u4]
    simp [List.filter_append, flushState_filter, eventIsKeyOrButton]
  case arrows.wasd =>
    obtain ⟨u1, u2, u3, u4⟩ := hLa hL
    obtain ⟨v1, v2, v3, v4⟩ := hRw hR
    rw [processStickAsKeys_noop _ _ _ _ _ _ _ u1 u2 u3 u4]
    rw [processStickAsKeys_noop _ _ _ _ _ _ _ v1 v2 v3 v4]
    simp [List.filter_append, flushState_filter, eventIsKeyOrButton]
  case arrows.arrows =>
    obtain ⟨u1, u2, u3, u4⟩ := hLa hL
    obtain ⟨v1, v2, v3, v4⟩ := hRa hR
    rw [processStickAsKeys_noop _ _ _ _ _ _ _ u1 u2 u3 u4]
    rw [processStickAsKeys_noop _ _ _ _ _ _ _ v1 v2 v3 v4]
    simp [List.filter_append, flushState_filter, eventIsKeyOrButton]
  case arrows.mouse =>
    obtain ⟨u1, u2, u3, u4⟩ := hLa hL
    rw [processStickAsKeys_noop _ _ _ _ _ _ _ u1 u2 u3 u4]
    simp [List.filter_append, flushState_filter, eventIsKeyOrButton]
  case arrows.disabled =>
    obtain ⟨u1, u2, u3, u4⟩ := hLa hL
    rw [processStickAsKeys_noop _ _ _ _ _ _ _ u1 u2 u3 u4]
    simp [List.filter_append, flushState_filter, eventIsKeyOrButton]
  case mouse.wasd =>
    obtain ⟨v1, v2, v3, v4⟩ := hRw hR
    have v1m : (processStickAsMouse fpow c (applyDeadzone lx ly c.sticks.deadzone).1 (applyDeadzone lx ly c.sticks.deadzone).2 s).keys c.sticks.left_up = (stickDirections (applyDeadzone rx ry c.sticks.deadzone).1 (applyDeadzone rx ry c.sticks.deadzone).2).1 := v1
    have v2m : (processStickAsMouse fpow c (applyDeadzone lx ly c.sticks.deadzone).1 (applyDeadzone lx ly c.sticks.deadzone).2 s).keys c.sticks.left_down = (stickDirections (applyDeadzone rx ry c.sticks.deadzone).1 (applyDeadzone rx ry c.sticks.deadzone).2).2.1 := v2
    have v3m : (processStickAsMouse fpow c (applyDeadzone lx ly c.sticks.deadzone).1 (applyDeadzone lx ly c.sticks.deadzone).2 s).keys c.sticks.left_left = (stickDirections (applyDeadzone rx ry c.sticks.deadzone).1 (applyDeadzone rx ry c.sticks.deadzone).2).2.2.1 := v3
    have v4m : (processStickAsMouse fpow c (applyDeadzone lx ly c.sticks.deadzone).1 (applyDeadzone lx ly c.sticks.deadzone).2 s).keys c.sticks.left_right = (stickDirections (applyDeadzone rx ry c.sticks.deadzone).1 (applyDeadzone rx ry c.sticks.deadzone).2).2.2.2 := v4
    rw [processStickAsKeys_noop _ _ _ _ _ _ _ v1m v2m v3m v4m]
    simp [List.filter_append, flushState_filter, eventIsKeyOrButton]
  case mouse.arrows =>
    obtain ⟨v1, v2, v3, v4⟩ := hRa hR
    have v1m : (processStickAsMouse fpow c (applyDeadzone lx ly c.sticks.deadzone).1 (applyDeadzone lx ly c.sticks.deadzone).2 s).keys 0x7E = (stickDirections (applyDeadzone rx ry c.sticks.deadzone).1 (applyDeadzone rx ry c.sticks.deadzone).2).1 := v1
    have v2m : (processStickAsMouse fpow c (applyDeadzone lx ly c.sticks.deadzone).1 (applyDeadzone lx ly c.sticks.deadzone).2 s).keys 0x7D = (stickDirections (applyDeadzone rx ry c.sticks.deadzone).1 (applyDeadzone rx ry c.sticks.deadzone).2).2.1 := v2
    have v3m : (processStickAsMouse fpow c (applyDeadzone lx ly c.sticks.deadzone).1 (applyDeadzone lx ly c.sticks.deadzone).2 s).keys 0x7B = (stickDirections (applyDeadzone rx ry c.sticks.deadzone).1 (applyDeadzone rx ry c.sticks.deadzone).2).2.2.1 := v3
    have v4m : (processStickAsMouse fpow c (applyDeadzone lx ly c.sticks.deadzone).1 (applyDeadzone lx ly c.sticks.deadzone).2 s).keys 0x7C = (stickDirections (applyDeadzone rx ry c.sticks.deadzone).1 (applyDeadzone rx ry c.sticks.deadzone).2).2.2.2 := v4
    rw [processStickAsKeys_noop _ _ _ _ _ _ _ v1m v2m v3m v4m]
    simp [List.filter_append, flushState_filter, eventIsKeyOrButton]
  case mouse.mouse =>
    simp [List.filter_append, flushState_filter, eventIsKeyOrButton]
  case mouse.disabled =>
    simp [List.filter_append, flushState_filter, eventIsKeyOrButton]
  case disabled.wasd =>
    obtain ⟨v1, v2, v3, v4⟩ := hRw hR
    rw [processStickAsKeys_noop _ _ _ _ _ _ _ v1 v2 v3 v4]
    simp [List.filter_append, flushState_filter, eventIsKeyOrButton]
  case disabled.arrows =>
    obtain ⟨v1, v2, v3, v4⟩ := hRa hR
    rw [processStickAsKeys_noop _ _ _ _ _ _ _ v1 v2 v3 v4]
    simp [List.filter_append, flushState_filter, eventIsKeyOrButton]
  case disabled.mouse =>
    simp [List.filter_append, flushState_filter, eventIsKeyOrButton]
  case disabled.disabled =>
    simp [List.filter_append, flushState_filter, eventIsKeyOrButton]


theorem processSticks_digital_slots (fpow : ℚ → ℚ → ℚ) (c : ControllerMapping)
    (lx ly rx ry : ℤ) (sA : InputState) (hnd : (digitalKeycodes c).Nodup) :
    (c.sticks.left_stick_mode = StickMode.wasd →
      (processSticks fpow c lx ly rx ry sA).2.keys c.sticks.left_up = (stickDirections (applyDeadzone lx ly c.sticks.deadzone).1 (applyDeadzone lx ly c.sticks.deadzone).2).1 ∧
      (processSticks fpow c lx ly rx ry sA).2.keys c.sticks.left_down = (stickDirections (applyDeadzone lx ly c.sticks.deadzone).1 (applyDeadzone lx ly c.sticks.deadzone).2).2.1 ∧
      (processSticks fpow c lx ly rx ry sA).2.keys c.sticks.left_left = (stickDirections (applyDeadzone lx ly c.sticks.deadzone).1 (applyDeadzone lx ly c.sticks.deadzone).2).2.2.1 ∧
      (processSticks fpow c lx ly rx ry sA).2.keys c.sticks.left_right = (stickDirections (applyDeadzone lx ly c.sticks.deadzone).1 (applyDeadzone lx ly c.sticks.deadzone).2).2.2.2) ∧
    (c.sticks.left_stick_mode = StickMode.arrows →
      (processSticks fpow c lx ly rx ry sA).2.keys 0x7E = (stickDirections (applyDeadzone lx ly c.sticks.deadzone).1 (applyDeadzone lx ly c.sticks.deadzone).2).1 ∧
      (processSticks fpow c lx ly rx ry sA).2.keys 0x7D = (stickDirections (applyDeadzone lx ly c.sticks.deadzone).1 (applyDeadzone lx ly c.sticks.deadzone).2).2.1 ∧
      (processSticks fpow c lx ly rx ry sA).2.keys 0x7B = (stickDirections (applyDeadzone lx ly c.sticks.deadzone).1 (applyDeadzone lx ly c.sticks.deadzone).2).2.2.1 ∧
      (processSticks fpow c lx ly rx ry sA).2.keys 0x7C = (stickDirections (applyDeadzone lx ly c.sticks.deadzone).1 (applyDeadzone lx ly c.sticks.deadzone).2).2.2.2) ∧
    (c.sticks.right_stick_mode = StickMode.wasd →
      (processSticks fpow c lx ly rx ry sA).2.keys c.sticks.left_up = (stickDirections (applyDeadzone rx ry c.sticks.deadzone).1 (applyDeadzone rx ry c.sticks.deadzone).2).1 ∧
      (processSticks fpow c lx ly rx ry sA).2.keys c.sticks.left_down = (stickDirections (applyDeadzone rx ry c.sticks.deadzone).1 (applyDeadzone rx ry c.sticks.deadzone).2).2.1 ∧
      (processSticks fpow c lx ly rx ry sA).2.keys c.sticks.left_left = (stickDirections (applyDeadzone rx ry c.sticks.deadzone).1 (applyDeadzone rx ry c.sticks.deadzone).2).2.2.1 ∧
      (processSticks fpow c lx ly rx ry sA).2.keys c.sticks.left_right = (stickDirections (applyDeadzone rx ry c.sticks.deadzone).1 (applyDeadzone rx ry c.sticks.deadzone).2).2.2.2) ∧
    (c.sticks.right_stick_mode = StickMode.arrows →
      (processSticks fpow c lx ly rx ry sA).2.keys 0x7E = (stickDirections (applyDeadzone rx ry c.sticks.deadzone).1 (applyDeadzone rx ry c.sticks.deadzone).2).1 ∧
      (processSticks fpow c lx ly rx ry sA).2.keys 0x7D = (stickDirections (applyDeadzone rx ry c.sticks.deadzone).1 (applyDeadzone rx ry c.sticks.deadzone).2).2.1 ∧
      (processSticks fpow c lx ly rx ry sA).2.keys 0x7B = (stickDirections (applyDeadzone rx ry c.sticks.deadzone).1 (applyDeadzone rx ry c.sticks.deadzone).2).2.2.1 ∧
      (processSticks fpow c lx ly rx ry sA).2.keys 0x7C = (stickDirections (applyDeadzone rx ry c.sticks.deadzone).1 (applyDeadzone rx ry c.sticks.deadzone).2).2.2.2) := by
  refine ⟨?_, ?_, ?_, ?_⟩ <;> intro hm
  · cases ho : c.sticks.right_stick_mode
    case wasd =>
      simp only [digitalKeycodes, hm, ho] at hnd
      rw [List.nodup_append] at hnd
      exact (hnd.2.2 (List.mem_cons_self _ _) (List.mem_cons_self _ _)).elim
    case arrows =>
      simp only [digitalKeycodes, hm, ho] at hnd
      rw [List.nodup_append] at hnd
      obtain ⟨hn1, hn2, hdj⟩ := hnd
      obtain ⟨n1, n2, n3, n4, n5, n6⟩ := nodup4 hn1
      have m00 : c.sticks.left_up ≠ 0x7E := fun he => hdj (show c.sticks.left_up ∈ _ by simp) (show c.sticks.left_up ∈ _ by simp [he])
      have m01 : c.sticks.left_up ≠ 0x7D := fun he => hdj (show c.sticks.left_up ∈ _ by simp) (show c.sticks.left_up ∈ _ by simp [he])
      have m02 : c.sticks.left_up ≠ 0x7B := fun he => hdj (show c.sticks.left_up ∈ _ by simp) (show c.sticks.left_up ∈ _ by simp [he])
      have m03 : c.sticks.left_up ≠ 0x7C := fun he => hdj (show c.sticks.left_up ∈ _ by simp) (show c.sticks.left_up ∈ _ by simp [he])
      have m10 : c.sticks.left_down ≠ 0x7E := fun he => hdj (show c.sticks.left_down ∈ _ by simp) (show c.sticks.left_down ∈ _ by simp [he])
      have m11 : c.sticks.left_down ≠ 0x7D := fun he => hdj (show c.sticks.left_down ∈ _ by simp) (show c.sticks.left_down ∈ _ by simp [he])
      have m12 : c.sticks.left_down ≠ 0x7B := fun he => hdj (show c.sticks.left_down ∈ _ by simp) (show c.sticks.left_down ∈ _ by simp [he])
      have m13 : c.sticks.left_down ≠ 0x7C := fun he => hdj (show c.sticks.left_down ∈ _ by simp) (show c.sticks.left_down ∈ _ by simp [he])
      have m20 : c.sticks.left_left ≠ 0x7E := fun he => hdj (show c.sticks.left_left ∈ _ by simp) (show c.sticks.left_left ∈ _ by simp [he])
      have m21 : c.sticks.left_left ≠ 0x7D := fun he => hdj (show c.sticks.left_left ∈ _ by simp) (show c.sticks.left_left ∈ _ by simp [he])
      have m22 : c.sticks.left_left ≠ 0x7B := fun he => hdj (show c.sticks.left_left ∈ _ by simp) (show c.sticks.left_left ∈ _ by simp [he])
      have m23 : c.sticks.left_left ≠ 0x7C := fun he => hdj (show c.sticks.left_left ∈ _ by simp) (show c.sticks.left_left ∈ _ by simp [he])
      have m30 : c.sticks.left_right ≠ 0x7E := fun he => hdj (show c.sticks.left_right ∈ _ by simp) (show c.sticks.left_right ∈ _ by simp [he])
      have m31 : c.sticks.left_right ≠ 0x7D := fun he => hdj (show c.sticks.left_right ∈ _ by simp) (show c.sticks.left_right ∈ _ by simp [he])
      have m32 : c.sticks.left_right ≠ 0x7B := fun he => hdj (show c.sticks.left_right ∈ _ by simp) (show c.sticks.left_right ∈ _ by simp [he])
      have m33 : c.sticks.left_right ≠ 0x7C := fun he => hdj (show c.sticks.left_right ∈ _ by simp) (show c.sticks.left_right ∈ _ by simp [he])
      refine ⟨?_, ?_, ?_, ?_⟩ <;> (simp only [processSticks, hm, ho]; rw [flushState_keys])
      · rw [processStickAsKeys_keys_other _ _ _ _ _ _ _ _ m00 m01 m02 m03]
        exact (processStickAsKeys_keys_slots _ _ _ _ _ _ _ n1 n2 n3 n4 n5 n6).1
      · rw [processStickAsKeys_keys_other _ _ _ _ _ _ _ _ m10 m11 m12 m13]
        exact (processStickAsKeys_keys_slots _ _ _ _ _ _ _ n1 n2 n3 n4 n5 n6).2.1
      · rw [processStickAsKeys_keys_other _ _ _ _ _ _ _ _ m20 m21 m22 m23]
        exact (processStickAsKeys_keys_slots _ _ _ _ _ _ _ n1 n2 n3 n4 n5 n6).2.2.1
      · rw [processStickAsKeys_keys_other _ _ _ _ _ _ _ _ m30 m31 m32 m33]
        exact (processStickAsKeys_keys_slots _ _ _ _ _ _ _ n1 n2 n3 n4 n5 n6).2.2.2
    case mouse =>
      simp only [digitalKeycodes, hm, ho, List.append_nil] at hnd
      obtain ⟨n1, n2, n3, n4, n5, n6⟩ := nodup4 hnd
      refine ⟨?_, ?_, ?_, ?_⟩ <;> (simp only [processSticks, hm, ho]; rw [flushState_keys, processStickAsMouse_keys])
      · exact (processStickAsKeys_keys_slots _ _ _ _ _ _ _ n1 n2 n3 n4 n5 n6).1
      · exact (processStickAsKeys_keys_slots _ _ _ _ _ _ _ n1 n2 n3 n4 n5 n6).2.1
      · exact (processStickAsKeys_keys_slots _ _ _ _ _ _ _ n1 n2 n3 n4 n5 n6).2.2.1
      · exact (processStickAsKeys_keys_slots _ _ _ _ _ _ _ n1 n2 n3 n4 n5 n6).2.2.2
    case disabled =>
      simp only [digitalKeycodes, hm, ho, List.append_nil] at hnd
      obtain ⟨n1, n2, n3, n4, n5, n6⟩ := nodup4 hnd
      refine ⟨?_, ?_, ?_, ?_⟩ <;> (simp only [processSticks, hm, ho]; rw [flushState_keys])
      · exact (processStickAsKeys_keys_slots _ _ _ _ _ _ _ n1 n2 n3 n4 n5 n6).1
      · exact (processStickAsKeys_keys_slots _ _ _ _ _ _ _ n1 n2 n3 n4 n5 n6).2.1
      · exact (processStickAsKeys_keys_slots _ _ _ _ _ _ _ n1 n2 n3 n4 n5 n6).2.2.1
      · exact (processStickAsKeys_keys_slots _ _ _ _ _ _ _ n1 n2 n3 n4 n5 n6).2.2.2
  · cases ho : c.sticks.right_stick_mode
    case wasd =>
      simp only [digitalKeycodes, hm, ho] at hnd
      rw [List.nodup_append] at hnd
      obtain ⟨hn1, hn2, hdj⟩ := hnd
      have m00 : 0x7E ≠ c.sticks.left_up := fun he => hdj (show 0x7E ∈ _ by simp) (show 0x7E ∈ _ by simp [he])
      have m01 : 0x7E ≠ c.sticks.left_down := fun he => hdj (show 0x7E ∈ _ by simp) (show 0x7E ∈ _ by simp [he])
      have m02 : 0x7E ≠ c.sticks.left_left := fun he => hdj (show 0x7E ∈ _ by simp) (show 0x7E ∈ _ by simp [he])
      have m03 : 0x7E ≠ c.sticks.left_right := fun he => hdj (show 0x7E ∈ _ by simp) (show 0x7E ∈ _ by simp [he])
      have m10 : 0x7D ≠ c.sticks.left_up := fun he => hdj (show 0x7D ∈ _ by simp) (show 0x7D ∈ _ by simp [he])
      have m11 : 0x7D ≠ c.sticks.left_down := fun he => hdj (show 0x7D ∈ _ by simp) (show 0x7D ∈ _ by simp [he])
      have m12 : 0x7D ≠ c.sticks.left_left := fun he => hdj (show 0x7D ∈ _ by simp) (show 0x7D ∈ _ by simp [he])
      have m13 : 0x7D ≠ c.sticks.left_right := fun he => hdj (show 0x7D ∈ _ by simp) (show 0x7D ∈ _ by simp [he])
      have m20 : 0x7B ≠ c.sticks.left_up := fun he => hdj (show 0x7B ∈ _ by simp) (show 0x7B ∈ _ by simp [he])
      have m21 : 0x7B ≠ c.sticks.left_down := fun he => hdj (show 0x7B ∈ _ by simp) (show 0x7B ∈ _ by simp [he])
      have m22 : 0x7B ≠ c.sticks.left_left := fun he => hdj (show 0x7B ∈ _ by simp) (show 0x7B ∈ _ by simp [he])
      have m23 : 0x7B ≠ c.sticks.left_right := fun he => hdj (show 0x7B ∈ _ by simp) (show 0x7B ∈ _ by simp [he])
      have m30 : 0x7C ≠ c.sticks.left_up := fun he => hdj (show 0x7C ∈ _ by simp) (show 0x7C ∈ _ by simp [he])
      have m31 : 0x7C ≠ c.sticks.left_down := fun he => hdj (show 0x7C ∈ _ by simp) (show 0x7C ∈ _ by simp [he])
      have m32 : 0x7C ≠ c.sticks.left_left := fun he => hdj (show 0x7C ∈ _ by simp) (show 0x7C ∈ _ by simp [he])
      have m33 : 0x7C ≠ c.sticks.left_right := fun he => hdj (show 0x7C ∈ _ by simp) (show 0x7C ∈ _ by simp [he])
      refine ⟨?_, ?_, ?_, ?_⟩ <;> (simp only [processSticks, hm, ho]; rw [flushState_keys])
      · rw [processStickAsKeys_keys_other _ _ _ _ _ _ _ _ m00 m01 m02 m03]
        exact (processStickAsKeys_keys_slots _ _ _ _ _ _ _ (by decide) (by decide) (by decide) (by decide) (by decide) (by decide)).1
      · rw [processStickAsKeys_keys_other _ _ _ _ _ _ _ _ m10 m11 m12 m13]
        exact (processStickAsKeys_keys_slots _ _ _ _ _ _ _ (by decide) (by decide) (by decide) (by decide) (by decide) (by decide)).2.1
      · rw [processStickAsKeys_keys_other _ _ _ _ _ _ _ _ m20 m21 m22 m23]
        exact (processStickAsKeys_keys_slots _ _ _ _ _ _ _ (by decide) (by decide) (by decide) (by decide) (by decide) (by decide)).2.2.1
      · rw [processStickAsKeys_keys_other _ _ _ _ _ _ _ _ m30 m31 m32 m33]
        exact (processStickAsKeys_keys_slots _ _ _ _ _ _ _ (by decide) (by decide) (by decide) (by decide) (by decide) (by decide)).2.2.2
    case arrows =>
      simp only [digitalKeycodes, hm, ho] at hnd
      exact absurd hnd (by decide)
    case mouse =>
      refine ⟨?_, ?_, ?_, ?_⟩ <;> (simp only [processSticks, hm, ho]; rw [flushState_keys, processStickAsMouse_keys])
      · exact (processStickAsKeys_keys_slots _ _ _ _ _ _ _ (by decide) (by decide) (by decide) (by decide) (by decide) (by decide)).1
      · exact (processStickAsKeys_keys_slots _ _ _ _ _ _ _ (by decide) (by decide) (by decide) (by decide) (by decide) (by decide)).2.1
      · exact (processStickAsKeys_keys_slots _ _ _ _ _ _ _ (by decide) (by decide) (by decide) (by decide) (by decide) (by decide)).2.2.1
      · exact (processStickAsKeys_keys_slots _ _ _ _ _ _ _ (by decide) (by decide) (by decide) (by decide) (by decide) (by decide)).2.2.2
    case disabled =>
      refine ⟨?_, ?_, ?_, ?_⟩ <;> (simp only [processSticks, hm, ho]; rw [flushState_keys])
      · exact (processStickAsKeys_keys_slots _ _ _ _ _ _ _ (by decide) (by decide) (by decide) (by decide) (by decide) (by decide)).1
      · exact (processStickAsKeys_keys_slots _ _ _ _ _ _ _ (by decide) (by decide) (by decide) (by decide) (by decide) (by decide)).2.1
      · exact (processStickAsKeys_keys_slots _ _ _ _ _ _ _ (by decide) (by decide) (by decide) (by decide) (by decide) (by decide)).2.2.1
      · exact (processStickAsKeys_keys_slots _ _ _ _ _ _ _ (by decide) (by decide) (by decide) (by decide) (by decide) (by decide)).2.2.2
  · cases ho : c.sticks.left_stick_mode
    case wasd =>
      simp only [digitalKeycodes, hm, ho] at hnd
      rw [List.nodup_append] at hnd
      exact (hnd.2.2 (List.mem_cons_self _ _) (List.mem_cons_self _ _)).elim
    case arrows =>
      simp only [digitalKeycodes, hm, ho] at hnd
      rw [List.nodup_append] at hnd
      obtain ⟨hn1, hn2, hdj⟩ := hnd
      obtain ⟨n1, n2, n3, n4, n5, n6⟩ := nodup4 hn2
      refine ⟨?_, ?_, ?_, ?_⟩ <;> (simp only [processSticks, hm, ho]; rw [flushState_keys])
      · exact (processStickAsKeys_keys_slots _ _ _ _ _ _ _ n1 n2 n3 n4 n5 n6).1
      · exact (processStickAsKeys_keys_slots _ _ _ _ _ _ _ n1 n2 n3 n4 n5 n6).2.1
      · exact (processStickAsKeys_keys_slots _ _ _ _ _ _ _ n1 n2 n3 n4 n5 n6).2.2.1
      · exact (processStickAsKeys_keys_slots _ _ _ _ _ _ _ n1 n2 n3 n4 n5 n6).2.2.2
    case mouse =>
      simp only [digitalKeycodes, hm, ho, List.nil_append] at hnd
      obtain ⟨n1, n2, n3, n4, n5, n6⟩ := nodup4 hnd
      refine ⟨?_, ?_, ?_, ?_⟩ <;> (simp only [processSticks, hm, ho]; rw [flushState_keys])
      · exact (processStickAsKeys_keys_slots _ _ _ _ _ _ _ n1 n2 n3 n4 n5 n6).1
      · exact (processStickAsKeys_keys_slots _ _ _ _ _ _ _ n1 n2 n3 n4 n5 n6).2.1
      · exact (processStickAsKeys_keys_slots _ _ _ _ _ _ _ n1 n2 n3 n4 n5 n6).2.2.1
      · exact (processStickAsKeys_keys_slots _ _ _ _ _ _ _ n1 n2 n3 n4 n5 n6).2.2.2
    case disabled =>
      simp only [digitalKeycodes, hm, ho, List.nil_append] at hnd
      obtain ⟨n1, n2, n3, n4, n5, n6⟩ := nodup4 hnd
      refine ⟨?_, ?_, ?_, ?_⟩ <;> (simp only [processSticks, hm, ho]; rw [flushState_keys])
      · exact (processStickAsKeys_keys_slots _ _ _ _ _ _ _ n1 n2 n3 n4 n5 n6).1
      · exact (processStickAsKeys_keys_slots _ _ _ _ _ _ _ n1 n2 n3 n4 n5 n6).2.1
      · exact (processStickAsKeys_keys_slots _ _ _ _ _ _ _ n1 n2 n3 n4 n5 n6).2.2.1
      · exact (processStickAsKeys_keys_slots _ _ _ _ _ _ _ n1 n2 n3 n4 n5 n6).2.2.2
  · cases ho : c.sticks.left_stick_mode
    case wasd =>
      refine ⟨?_, ?_, ?_, ?_⟩ <;> (simp only [processSticks, hm, ho]; rw [flushState_keys])
      · exact (processStickAsKeys_keys_slots _ _ _ _ _ _ _ (by decide) (by decide) (by decide) (by decide) (by decide) (by decide)).1
      · exact (processStickAsKeys_keys_slots _ _ _ _ _ _ _ (by decide) (by decide) (by decide) (by decide) (by decide) (by decide)).2.1
      · exact (processStickAsKeys_keys_slots _ _ _ _ _ _ _ (by decide) (by decide) (by decide) (by decide) (by decide) (by decide)).2.2.1
      · exact (processStickAsKeys_keys_slots _ _ _ _ _ _ _ (by decide) (by decide) (by decide) (by decide) (by decide) (by decide)).2.2.2
    case arrows =>
      simp only [digitalKeycodes, hm, ho] at hnd
      exact absurd hnd (by decide)
    case mouse =>
      refine ⟨?_, ?_, ?_, ?_⟩ <;> (simp only [processSticks, hm, ho]; rw [flushState_keys])
      · exact (processStickAsKeys_keys_slots _ _ _ _ _ _ _ (by decide) (by decide) (by decide) (by decide) (by decide) (by decide)).1
      · exact (processStickAsKeys_keys_slots _ _ _ _ _ _ _ (by decide) (by decide) (by decide) (by decide) (by decide) (by decide)).2.1
      · exact (processStickAsKeys_keys_slots _ _ _ _ _ _ _ (by decide) (by decide) (by decide) (by decide) (by decide) (by decide)).2.2.1
      · exact (processStickAsKeys_keys_slots _ _ _ _ _ _ _ (by decide) (by decide) (by decide) (by decide) (by decide) (by decide)).2.2.2
    case disabled =>
      refine ⟨?_, ?_, ?_, ?_⟩ <;> (simp only [processSticks, hm, ho]; rw [flushState_keys])
      · exact (processStickAsKeys_keys_slots _ _ _ _ _ _ _ (by decide) (by decide) (by decide) (by decide) (by decide) (by decide)).1
      · exact (processStickAsKeys_keys_slots _ _ _ _ _ _ _ (by decide) (by decide) (by decide) (by decide) (by decide) (by decide)).2.1
      · exact (processStickAsKeys_keys_slots _ _ _ _ _ _ _ (by decide) (by decide) (by decide) (by decide) (by decide) (by decide)).2.2.1
      · exact (processStickAsKeys_keys_slots _ _ _ _ _ _ _ (by decide) (by decide) (by decide) (by decide) (by decide) (by decide)).2.2.2


/-- C9 counterexample: with the right stick in WASD mode (which, per the
source, writes the left stick's keycode slots) and the left stick held up,
processing the identical snapshot twice emits a press and a release of
keycode 0x0D on the SECOND cycle as well: the two digital sticks fight
over the same hold slot, so the second cycle is not transition-free. -/
theorem c9_cex :
    ((processSnapshot powZero cfgRightWasd snapUp
        (processSnapshot powZero cfgRightWasd snapUp initState).2).1.filter
      eventIsKeyOrButton) = [Event.key 0x0D true, Event.key 0x0D false] ∧
    ((processSnapshot powZero cfgRightWasd snapUp
        (processSnapshot powZero cfgRightWasd snapUp initState).2).1.filter
      eventIsKeyOrButton) ≠ [] :=
  ⟨by decide, by decide⟩

/-- C9 amended: processing the same InputSnapshot twice in a row emits
zero key and pointer-button transitions on the second processing cycle,
provided the keycode slots written by the digital stick paths are all
distinct (`(digitalKeycodes c).Nodup`); in particular the two sticks must
not both be in digital-direction modes, which share keycode slots in this
code. -/
theorem c9_idempotent_second_cycle (fpow : ℚ → ℚ → ℚ) (c : ControllerMapping)
    (snap : InputSnapshot) (s : InputState) (hnd : (digitalKeycodes c).Nodup) :
    ((processSnapshot fpow c snap
        (processSnapshot fpow c snap s).2).1.filter eventIsKeyOrButton) = [] := by
  have hs1 : (processSnapshot fpow c snap s).2 =
      (processSticks fpow c snap.left_stick_x snap.left_stick_y snap.right_stick_x
        snap.right_stick_y ((processTriggers c snap.left_trigger snap.right_trigger
          ((processButtons c snap.buttons s).2)).2)).2 := rfl
  set s1 := (processSnapshot fpow c snap s).2 with hs1def
  have f1 : s1.prev_buttons = snap.buttons := by
    rw [hs1, processSticks_prev_buttons, processTriggers_prev_buttons]
    rfl
  have f2 : s1.prev_left_trigger = snap.right_trigger := by
    rw [hs1, (processSticks_prev_triggers _ _ _ _ _ _ _).1, (processTriggers_prev _ _ _ _).1]
  have f3 : s1.prev_right_trigger = snap.left_trigger := by
    rw [hs1, (processSticks_prev_triggers _ _ _ _ _ _ _).2, (processTriggers_prev _ _ _ _).2]
  have slots := processSticks_digital_slots fpow c snap.left_stick_x snap.left_stick_y
      snap.right_stick_x snap.right_stick_y
      ((processTriggers c snap.left_trigger snap.right_trigger
        ((processButtons c snap.buttons s).2)).2) hnd
  rw [← hs1] at slots
  show ((processSnapshot fpow c snap s1).1.filter eventIsKeyOrButton) = []
  simp only [processSnapshot]
  rw [processButtons_noop c snap.buttons s1 f1]
  rw [processTriggers_noop c snap.left_trigger snap.right_trigger s1 f3 f2]
  simp only [List.nil_append]
  exact processSticks_noop_filter fpow c snap.left_stick_x snap.left_stick_y
    snap.right_stick_x snap.right_stick_y s1 slots.1 slots.2.1 slots.2.2.1 slots.2.2.2

/-- Witness for `c9_idempotent_second_cycle` at the default mapping. -/
theorem c9_idempotent_witness :
    (digitalKeycodes get_default_mapping).Nodup ∧
    ((processSnapshot powZero get_default_mapping snapUp
        (processSnapshot powZero get_default_mapping snapUp initState).2).1.filter
      eventIsKeyOrButton) = [] :=
  ⟨by decide,
    c9_idempotent_second_cycle powZero get_default_mapping snapUp initState (by decide)⟩

/-! Shutdown release pass claim theorems. -/

theorem heldKeycodes_nodup (s : InputState) : (heldKeycodes s).Nodup :=
  List.Nodup.filter _ (List.nodup_range 256)

theorem mem_heldKeycodes (s : InputState) (k : ℕ) :
    k ∈ heldKeycodes s ↔ k < 256 ∧ s.keys k = true := by
  simp [heldKeycodes, List.mem_filter, List.mem_range]

theorem shutdownEvents_spec (s : InputState) (hOK : StateOK s) (k : ℕ) :
    (s.keys k = true → (shutdownEvents s).count (Event.key k false) = 1) ∧
    (s.keys k = false → (shutdownEvents s).count (Event.key k false) = 0) ∧
    (∀ p : Bool, Event.key k p ∈ shutdownEvents s → p = false ∧ s.keys k = true) ∧
    (s.mouse_left = true → Event.mouseButton MouseButton.left false ∈ shutdownEvents s) ∧
    (s.mouse_right = true → Event.mouseButton MouseButton.right false ∈ shutdownEvents s) ∧
    (s.mouse_middle = true → Event.mouseButton MouseButton.middle false ∈ shutdownEvents s) ∧
    ((heldKeycodes s).length = 3 → ((shutdownEvents s).filter isKeyEvent).length = 3) := by
  obtain ⟨hmid, hbig⟩ := hOK
  have hinj : Function.Injective (fun i : ℕ => Event.key i false) := by
    intro a b hab
    simpa using hab
  have hmapmem : ∀ j : ℕ, ∀ p : Bool,
      Event.key j p ∈ (heldKeycodes s).map (fun i => Event.key i false) ↔
        (p = false ∧ j ∈ heldKeycodes s) := by
    intro j p
    simp only [List.mem_map]
    constructor
    · rintro ⟨i, hi, hip⟩
      cases hip
      exact ⟨rfl, hi⟩
    · rintro ⟨rfl, hj⟩
      exact ⟨j, hj, rfl⟩
  have hcount_mouse : ∀ (l : List Event),
      ((if s.mouse_left then [Event.mouseButton MouseButton.left false] else []) ++
        (if s.mouse_right then [Event.mouseButton MouseButton.right false] else [])).count
        (Event.key k false) = 0 := by
    intro _
    rw [List.count_eq_zero]
    intro hmem
    rcases List.mem_append.mp hmem with h | h <;> split at h <;> simp at h
  refine ⟨?_, ?_, ?_, ?_, ?_, ?_, ?_⟩
  · intro hk
    have hk256 : k < 256 := by
      by_contra hc
      push_neg at hc
      rw [hbig k hc] at hk
      cases hk
    have hmem : k ∈ heldKeycodes s := (mem_heldKeycodes s k).mpr ⟨hk256, hk⟩
    have hmem2 : Event.key k false ∈ (heldKeycodes s).map (fun i => Event.key i false) :=
      (hmapmem k false).mpr ⟨rfl, hmem⟩
    have hnd : ((heldKeycodes s).map (fun i => Event.key i false)).Nodup :=
      (heldKeycodes_nodup s).map hinj
    rw [shutdownEvents, List.append_assoc, List.count_append,
      List.count_eq_one_of_mem hnd hmem2, hcount_mouse []]
  · intro hk
    rw [shutdownEvents, List.append_assoc, List.count_append, hcount_mouse []]
    rw [List.count_eq_zero.mpr, Nat.zero_add]
    intro hmem
    obtain ⟨hp, hheld⟩ := (hmapmem k false).mp hmem
    rw [(mem_heldKeycodes s k).mp hheld |>.2] at hk
    cases hk
  · intro p hp
    rw [shutdownEvents] at hp
    rcases List.mem_append.mp hp with h | h
    · rcases List.mem_append.mp h with h2 | h2
      · obtain ⟨hpf, hheld⟩ := (hmapmem k p).mp h2
        exact ⟨hpf, ((mem_heldKeycodes s k).mp hheld).2⟩
      · split at h2 <;> simp at h2
    · split at h <;> simp at h
  · intro hl
    rw [shutdownEvents]
    refine List.mem_append.mpr (Or.inl (List.mem_append.mpr (Or.inr ?_)))
    rw [if_pos hl]
    exact List.mem_singleton.mpr rfl
  · intro hr
    rw [shutdownEvents]
    refine List.mem_append.mpr (Or.inr ?_)
    rw [if_pos hr]
    exact List.mem_singleton.mpr rfl
  · intro hm
    rw [hmid] at hm
    cases hm
  · intro hlen
    rw [shutdownEvents]
    rw [List.filter_append, List.filter_append]
    have h1 : ((heldKeycodes s).map (fun i => Event.key i false)).filter isKeyEvent =
        (heldKeycodes s).map (fun i => Event.key i false) := by
      rw [List.filter_eq_self]
      intro e he
      obtain ⟨i, _, rfl⟩ := List.mem_map.mp he
      rfl
    have h2 : ((if s.mouse_left then [Event.mouseButton MouseButton.left false] else
        []) : List Event).filter isKeyEvent = [] := by
      split <;> rfl
    have h3 : ((if s.mouse_right then [Event.mouseButton MouseButton.right false] else
        []) : List Event).filter isKeyEvent = [] := by
      split <;> rfl
    rw [h1, h2, h3, List.append_nil, List.append_nil, List.length_map, hlen]

/-- C1: on termination, regardless of which code path ended the read loop
(signal-exhausted reads or device loss), the shutdown pass emits exactly
one release (pressed = false) transition for every keycode currently
marked held, no key event for an unheld keycode and no press events, and a
release for every pointer button currently held (the middle button is
never held in a reachable state, so its conjunct holds vacuously); with 3
keycodes held, exactly 3 key release transitions are emitted. -/
theorem c1_shutdown_release (fpow : ℚ → ℚ → ℚ) (c : ControllerMapping)
    (reads : List ReadResult) (hv : ValidConfig c) (k : ℕ) :
    ((runLoop fpow c reads initState).2.keys k = true →
      (shutdownEvents (runLoop fpow c reads initState).2).count (Event.key k false) = 1) ∧
    ((runLoop fpow c reads initState).2.keys k = false →
      (shutdownEvents (runLoop fpow c reads initState).2).count (Event.key k false) = 0) ∧
    (∀ p : Bool, Event.key k p ∈ shutdownEvents (runLoop fpow c reads initState).2 →
      p = false ∧ (runLoop fpow c reads initState).2.keys k = true) ∧
    ((runLoop fpow c reads initState).2.mouse_left = true →
      Event.mouseButton MouseButton.left false ∈
        shutdownEvents (runLoop fpow c reads initState).2) ∧
    ((runLoop fpow c reads initState).2.mouse_right = true →
      Event.mouseButton MouseButton.right false ∈
        shutdownEvents (runLoop fpow c reads initState).2) ∧
    ((runLoop fpow c reads initState).2.mouse_middle = true →
      Event.mouseButton MouseButton.middle false ∈
        shutdownEvents (runLoop fpow c reads initState).2) ∧
    ((heldKeycodes (runLoop fpow c reads initState).2).length = 3 →
      ((shutdownEvents (runLoop fpow c reads initState).2).filter isKeyEvent).length = 3) :=
  shutdownEvents_spec _
    (runLoop_stateOK fpow c reads initState hv ⟨rfl, fun _ _ => rfl⟩) k

/-- Witness for `c1_shutdown_release`: one Input frame holding A, B and X
leaves exactly 3 keycodes held, and the shutdown pass emits exactly 3 key
releases. -/
theorem c1_shutdown_release_witness :
    ValidConfig get_default_mapping ∧
    (heldKeycodes (runLoop powZero get_default_mapping [ReadResult.ok frameABX]
      initState).2).length = 3 ∧
    ((shutdownEvents (runLoop powZero get_default_mapping [ReadResult.ok frameABX]
      initState).2).filter isKeyEvent).length = 3 :=
  ⟨by decide, by decide,
    (c1_shutdown_release powZero get_default_mapping [ReadResult.ok frameABX]
      (by decide) 0).2.2.2.2.2.2 (by decide)⟩

end Simulator
